import Mathlib

/-!
Verification of the Smart Economic Decision Engine's structured-query
pipeline and crawl orchestration engine.

The Python sources under `src/` are shallowly embedded: pure functions
become Lean functions over `String`/`List`/`ℚ`, Python `re` usage is
embedded by a small token matcher covering exactly the regex constructs
the sources use (literals, `\s+`, `\s*`, `(.+?)`, non-capturing
alternations, optional groups, and captured number literals), pydantic
validators become `Except`-returning constructors, and Python `float`
arithmetic is idealised as exact rational arithmetic over `ℚ`.
-/

namespace SEDE

/-! ### String helpers (Python `in`, `str.lower`, `str.strip`) -/

/-- Python `str.lower` (ASCII case folding; identity on Persian letters). -/
def lowerStr (s : String) : String := ⟨s.data.map Char.toLower⟩

/-- Does `needle` occur at the head of `haystack` (case-sensitive)? -/
def beginsWith : List Char → List Char → Bool
  | [], _ => true
  | _ :: _, [] => false
  | a :: as, b :: bs => (a == b) && beginsWith as bs

/-- Does `needle` occur at the head of `haystack`, comparing characters
case-insensitively (embeds `re.IGNORECASE` literal matching)? -/
def beginsWithCI : List Char → List Char → Bool
  | [], _ => true
  | _ :: _, [] => false
  | a :: as, b :: bs => (a.toLower == b.toLower) && beginsWithCI as bs

/-- Substring containment over char lists (Python `needle in haystack`). -/
def containsSub (needle : List Char) : List Char → Bool
  | [] => beginsWith needle []
  | c :: cs => beginsWith needle (c :: cs) || containsSub needle cs

/-- Python `needle in haystack` on strings. -/
def containsStr (needle haystack : String) : Bool :=
  containsSub needle.data haystack.data

/-- The whitespace class matched by `\s` on the inputs the program sees. -/
def isWs (c : Char) : Bool :=
  c == ' ' || c == '\t' || c == '\n' || c == '\r'

/-- Python `str.strip`. -/
def stripStr (s : String) : List Char :=
  ((s.data.dropWhile (fun c => isWs c)).reverse.dropWhile (fun c => isWs c)).reverse

/-! ### A small matcher for the regex fragment used by the sources -/

/-- One token of a source regex.  The sources only combine literal runs,
whitespace classes, a lazy wildcard group, non-capturing alternations
(possibly optional), captured number literals, and a trailing
delimiter-or-end group, so the embedding enumerates exactly those. -/
inductive Tok where
  /-- a literal run of characters -/
  | lit (s : List Char)
  /-- a non-capturing alternation of literal runs -/
  | alt (ss : List (List Char))
  /-- an optional non-capturing alternation of literal runs -/
  | optAlt (ss : List (List Char))
  /-- one or more whitespace characters -/
  | ws1
  /-- zero or more whitespace characters -/
  | ws0
  /-- one or more arbitrary non-newline characters, lazily -/
  | dot1
  /-- captured decimal number -/
  | num
  /-- captured decimal number allowing comma groups -/
  | numC
  /-- captured digit run -/
  | natNum
  /-- one whitespace, Persian comma or dot, or end of input -/
  | delimEnd
  deriving Repr, DecidableEq

/-- Weight of a token for the termination measure of the matcher. -/
def tokWeight : Tok → Nat
  | Tok.alt ss => ss.length + 1
  | Tok.optAlt ss => ss.length + 2
  | _ => 1

/-- Combined weight of a token list. -/
def toksWeight (ts : List Tok) : Nat := (ts.map tokWeight).sum

theorem tokWeight_pos (t : Tok) : 1 ≤ tokWeight t := by
  cases t <;> simp [tokWeight]

theorem toksWeight_cons (t : Tok) (ts : List Tok) :
    toksWeight (t :: ts) = tokWeight t + toksWeight ts := by
  simp [toksWeight]

/-- Number of ASCII digits at the head of a char list (the extent of a
greedy `\d+` or `\d*`). -/
def countDigits : List Char → Nat
  | [] => 0
  | c :: cs => if c.isDigit then countDigits cs + 1 else 0

/-- Match the shape of a captured number `\d+(\.\d+)?` at the head,
returning the captured characters and the number of characters consumed. -/
def matchNum (cs : List Char) : Option (List Char × Nat) :=
  let n := countDigits cs
  if n = 0 then none
  else
    match cs.drop n with
    | '.' :: r2 =>
      let m := countDigits r2
      if m = 0 then some (cs.take n, n)
      else some (cs.take n ++ '.' :: r2.take m, n + 1 + m)
    | _ => some (cs.take n, n)

/-- Length of the maximal run of comma-plus-three-digit groups at the head,
the extent of a greedy `(,\d\d\d)*`. -/
def commaGroupsLen : List Char → Nat
  | ',' :: a :: b :: c :: rest =>
    if a.isDigit && b.isDigit && c.isDigit then 4 + commaGroupsLen rest else 0
  | _ => 0

/-- Match `\d+(,\d\d\d)*(\.\d+)?` at the head, returning the captured
characters and the number of characters consumed. -/
def matchNumC (cs : List Char) : Option (List Char × Nat) :=
  let n := countDigits cs
  if n = 0 then none
  else
    let g := commaGroupsLen (cs.drop n)
    match cs.drop (n + g) with
    | '.' :: r3 =>
      let m := countDigits r3
      if m = 0 then some (cs.take (n + g), n + g)
      else some (cs.take (n + g) ++ '.' :: r3.take m, n + g + 1 + m)
    | _ => some (cs.take (n + g), n + g)

/-- Match `\d+` at the head, returning the captured characters and the
number of characters consumed. -/
def matchNatNum (cs : List Char) : Option (List Char × Nat) :=
  let n := countDigits cs
  if n = 0 then none else some (cs.take n, n)

/-- Try to match the token list at the head of the char list, returning the
first captured number group (if any) and the unconsumed remainder.
Alternatives are tried left to right with backtracking; `dot1` is lazy.
The fuel argument only drives the structural recursion: every step either
consumes a character or strictly shrinks the token weight, so
`(cs.length + 1) * (toksWeight ts + 1) + 1` steps always suffice and the
out-of-fuel branch is unreachable from `matchAt`. -/
def matchAtF : Nat → List Tok → List Char → Option (Option (List Char) × List Char)
  | 0, _, _ => none
  | _ + 1, [], cs => some (none, cs)
  | fuel + 1, Tok.lit [] :: ts, cs => matchAtF fuel ts cs
  | _ + 1, Tok.lit (_ :: _) :: _, [] => none
  | fuel + 1, Tok.lit (a :: s) :: ts, c :: cs =>
    if (a.toLower == c.toLower) && beginsWithCI s cs then
      matchAtF fuel ts (cs.drop s.length)
    else none
  | _ + 1, Tok.alt [] :: _, _ => none
  | fuel + 1, Tok.alt ([] :: ss) :: ts, cs =>
    match matchAtF fuel ts cs with
    | some r => some r
    | none => matchAtF fuel (Tok.alt ss :: ts) cs
  | fuel + 1, Tok.alt ((_ :: _) :: ss) :: ts, [] => matchAtF fuel (Tok.alt ss :: ts) []
  | fuel + 1, Tok.alt ((a :: s) :: ss) :: ts, c :: cs =>
    if (a.toLower == c.toLower) && beginsWithCI s cs then
      match matchAtF fuel ts (cs.drop s.length) with
      | some r => some r
      | none => matchAtF fuel (Tok.alt ss :: ts) (c :: cs)
    else matchAtF fuel (Tok.alt ss :: ts) (c :: cs)
  | fuel + 1, Tok.optAlt ss :: ts, cs =>
    match matchAtF fuel (Tok.alt ss :: ts) cs with
    | some r => some r
    | none => matchAtF fuel ts cs
  | _ + 1, Tok.ws1 :: _, [] => none
  | fuel + 1, Tok.ws1 :: ts, c :: cs =>
    if isWs c then matchAtF fuel (Tok.ws0 :: ts) cs else none
  | fuel + 1, Tok.ws0 :: ts, [] => matchAtF fuel ts []
  | fuel + 1, Tok.ws0 :: ts, c :: cs =>
    if isWs c then
      match matchAtF fuel (Tok.ws0 :: ts) cs with
      | some r => some r
      | none => matchAtF fuel ts (c :: cs)
    else matchAtF fuel ts (c :: cs)
  | _ + 1, Tok.dot1 :: _, [] => none
  | fuel + 1, Tok.dot1 :: ts, c :: cs =>
    if c == '\n' then none
    else
      match matchAtF fuel ts cs with
      | some (_, r) => some (some [c], r)
      | none =>
        match matchAtF fuel (Tok.dot1 :: ts) cs with
        | some (cap, r) => some (some (c :: cap.getD []), r)
        | none => none
  | fuel + 1, Tok.num :: ts, cs =>
    match matchNum cs with
    | none => none
    | some (cap, k) =>
      match matchAtF fuel ts (cs.drop k) with
      | some (_, r) => some (some cap, r)
      | none => none
  | fuel + 1, Tok.numC :: ts, cs =>
    match matchNumC cs with
    | none => none
    | some (cap, k) =>
      match matchAtF fuel ts (cs.drop k) with
      | some (_, r) => some (some cap, r)
      | none => none
  | fuel + 1, Tok.natNum :: ts, cs =>
    match matchNatNum cs with
    | none => none
    | some (cap, k) =>
      match matchAtF fuel ts (cs.drop k) with
      | some (_, r) => some (some cap, r)
      | none => none
  | fuel + 1, Tok.delimEnd :: ts, [] => matchAtF fuel ts []
  | fuel + 1, Tok.delimEnd :: ts, c :: cs =>
    if isWs c || c == '،' || c == '.' then matchAtF fuel ts cs else none

/-- Matching with always-sufficient fuel. -/
def matchAt (ts : List Tok) (cs : List Char) :
    Option (Option (List Char) × List Char) :=
  matchAtF ((cs.length + 1) * (toksWeight ts + 1) + 1) ts cs

/-- One regex match: the first captured group, the whole matched text
(`group(0)`), and its start and end offsets. -/
structure MatchData where
  group1 : List Char
  whole : List Char
  startPos : Nat
  endPos : Nat
  deriving Repr, DecidableEq

/-- All non-overlapping matches of a pattern from a given position,
leftmost first, resuming after each match (`re.finditer` semantics).
Every scan step advances at least one character, so `cs.length + 1` fuel
always suffices and the out-of-fuel branch is unreachable from
`findAllFrom`. -/
def findAllFromF : Nat → List Tok → List Char → Nat → List MatchData
  | 0, _, _, _ => []
  | _ + 1, p, [], pos =>
    match matchAt p [] with
    | some (cap, _) => [⟨cap.getD [], [], pos, pos⟩]
    | none => []
  | fuel + 1, p, c :: cs', pos =>
    match matchAt p (c :: cs') with
    | some (cap, rest) =>
      let consumed := (c :: cs').length - rest.length
      if consumed = 0 then findAllFromF fuel p cs' (pos + 1)
      else
        ⟨cap.getD [], (c :: cs').take consumed, pos, pos + consumed⟩ ::
          findAllFromF fuel p ((c :: cs').drop consumed) (pos + consumed)
    | none => findAllFromF fuel p cs' (pos + 1)

/-- Scanning with always-sufficient fuel. -/
def findAllFrom (p : List Tok) (cs : List Char) (pos : Nat) : List MatchData :=
  findAllFromF (cs.length + 1) p cs pos

/-- `re.finditer(pattern, text)`. -/
def reFinditer (p : List Tok) (text : String) : List MatchData :=
  findAllFrom p text.data 0

/-- Is there a match anywhere (`re.search(pattern, text) is not None`)? -/
def searchFrom (p : List Tok) : List Char → Bool
  | [] => (matchAt p []).isSome
  | c :: cs => (matchAt p (c :: cs)).isSome || searchFrom p cs

/-- `re.search(pattern, text)` as a Boolean. -/
def reSearch (p : List Tok) (text : String) : Bool :=
  searchFrom p text.data

/-! ### Number parsing (Python `int`/`float` on matched digit strings) -/

/-- Python `int` on a digit string. -/
def digitsToNat (ds : List Char) : Nat :=
  ds.foldl (fun a c => a * 10 + (c.toNat - 48)) 0

/-- Python `float` on a string shaped `\d+(\.\d+)?`, idealised over `ℚ`. -/
def parseDecimal (s : List Char) : ℚ :=
  let ip := s.takeWhile (fun c => c ≠ '.')
  match s.dropWhile (fun c => c ≠ '.') with
  | '.' :: fp => (digitsToNat ip : ℚ) + (digitsToNat fp : ℚ) / ((10 : ℚ) ^ fp.length)
  | _ => (digitsToNat ip : ℚ)

/-- Python `str.strip` on char lists. -/
def stripWs (s : List Char) : List Char :=
  ((s.dropWhile (fun c => isWs c)).reverse.dropWhile (fun c => isWs c)).reverse

/-! ### `src/chatbot/schemas.py` -/

/-- `SearchGoalType` enum. -/
inductive SearchGoalType where
  | residential_rent
  | residential_purchase
  | vehicle_purchase
  | vehicle_lease
  | electronics
  | general
  deriving Repr, DecidableEq

/-- `BudgetSource` enum. -/
inductive BudgetSource where
  | liquidity
  | loan
  | liquidity_loan
  | monthly_payment
  deriving Repr, DecidableEq

/-- `Priority` enum. -/
inductive Priority where
  | high
  | medium
  | low
  deriving Repr, DecidableEq

/-- `UserProfile` model (all money amounts in millions of Tomans). -/
structure UserProfile where
  liquidity : ℚ
  loan_amount : ℚ
  loan_availability_months : Nat
  max_monthly_payment : ℚ
  existing_obligations : ℚ
  deriving Repr, DecidableEq

/-- `UserProfile.total_budget`. -/
def UserProfile.total_budget (p : UserProfile) : ℚ :=
  p.liquidity + p.loan_amount

/-- `UserProfile.effective_monthly_budget`. -/
def UserProfile.effective_monthly_budget (p : UserProfile) : ℚ :=
  p.max_monthly_payment - p.existing_obligations

/-- Validating constructor for `UserProfile` (the pydantic `ge=0` field
constraints; `loan_availability_months` is a `Nat`, so its bound is free). -/
def mkUserProfile (liquidity loan_amount : ℚ) (loan_availability_months : Nat)
    (max_monthly_payment : ℚ) (existing_obligations : ℚ := 0) :
    Except String UserProfile :=
  if liquidity < 0 then .error "liquidity must be non-negative"
  else if loan_amount < 0 then .error "loan_amount must be non-negative"
  else if max_monthly_payment < 0 then .error "max_monthly_payment must be non-negative"
  else if existing_obligations < 0 then .error "existing_obligations must be non-negative"
  else .ok ⟨liquidity, loan_amount, loan_availability_months,
    max_monthly_payment, existing_obligations⟩

/-- `SearchGoal` model. -/
structure SearchGoal where
  goal_id : Nat
  type : SearchGoalType
  target_location : String
  budget_source : BudgetSource
  priority : Priority
  search_type : String
  min_price : Option ℚ
  max_price : Option ℚ
  max_monthly_lease_payment : Option ℚ
  additional_filters : List (String × String)
  deriving Repr, DecidableEq

/-- The guard under which `SearchGoal.validate_price_range` raises: the
Python code runs the comparison only when `min_price` is among the already
validated values and both prices are truthy — present *and* nonzero. -/
def priceRangeInvalid (min_price max_price : Option ℚ) : Bool :=
  match min_price, max_price with
  | some mn, some mx => decide (mx ≠ 0) && decide (mn ≠ 0) && decide (mx < mn)
  | _, _ => false

/-- Validating constructor for `SearchGoal`: pydantic `ge=0` bounds on the
optional prices, then the `validate_price_range` validator. -/
def mkSearchGoal (goal_id : Nat) (ty : SearchGoalType) (target_location : String)
    (budget_source : BudgetSource) (priority : Priority) (search_type : String)
    (min_price max_price max_monthly_lease_payment : Option ℚ)
    (additional_filters : List (String × String) := []) :
    Except String SearchGoal :=
  if min_price.any (fun v => decide (v < 0)) then
    .error "min_price must be non-negative"
  else if max_price.any (fun v => decide (v < 0)) then
    .error "max_price must be non-negative"
  else if priceRangeInvalid min_price max_price then
    .error "max_price must be greater than min_price"
  else if max_monthly_lease_payment.any (fun v => decide (v < 0)) then
    .error "max_monthly_lease_payment must be non-negative"
  else .ok ⟨goal_id, ty, target_location, budget_source, priority, search_type,
    min_price, max_price, max_monthly_lease_payment, additional_filters⟩

/-- `StructuredQuery` model. -/
structure StructuredQuery where
  user_profile : UserProfile
  search_goals : List SearchGoal
  is_multi_goal : Bool
  confidence : ℚ
  timestamp : Option String
  deriving Repr, DecidableEq

/-- Validating constructor for `StructuredQuery`: `confidence` is bounded to
`[0,1]` by field constraints and `validate_goals` requires a non-empty goal
list. -/
def mkStructuredQuery (user_profile : UserProfile) (search_goals : List SearchGoal)
    (is_multi_goal : Bool) (confidence : ℚ) : Except String StructuredQuery :=
  if search_goals.isEmpty then .error "At least one search goal is required"
  else if confidence < 0 ∨ 1 < confidence then
    .error "confidence must lie in the unit interval"
  else .ok ⟨user_profile, search_goals, is_multi_goal, confidence, none⟩

/-! ### `src/chatbot/entity_extractor.py` -/

/-- The `(?:میلیون|ملیون|م|M)` unit alternation. -/
def millionUnits : List (List Char) :=
  ["میلیون".data, "ملیون".data, "م".data, "M".data]

/-- The optional `(?:تومان|تومن)?` suffix. -/
def tomanSuffix : Tok := Tok.optAlt ["تومان".data, "تومن".data]

/-- `self.money_patterns`. -/
def money_patterns : List (List Tok) :=
  [[Tok.num, Tok.ws0, Tok.alt millionUnits, Tok.ws0, tomanSuffix],
   [Tok.num, Tok.ws0, Tok.alt ["هزار".data, "k".data], Tok.ws0, tomanSuffix],
   [Tok.num, Tok.ws0, Tok.alt ["میلیارد".data, "بیلیون".data, "b".data], Tok.ws0, tomanSuffix],
   [Tok.numC, Tok.ws0, Tok.alt ["تومان".data, "تومن".data]]]

/-- `self.monthly_patterns`. -/
def monthly_patterns : List (List Tok) :=
  [[Tok.lit "ماهی".data, Tok.ws0, Tok.num, Tok.ws0, Tok.alt millionUnits],
   [Tok.lit "ماهانه".data, Tok.ws0, Tok.num, Tok.ws0, Tok.alt millionUnits],
   [Tok.lit "قسط".data, Tok.ws0, Tok.num, Tok.ws0, Tok.alt millionUnits]]

/-- `self.loan_patterns`. -/
def loan_patterns : List (List Tok) :=
  [[Tok.lit "وام".data, Tok.ws0, Tok.num, Tok.ws0, Tok.alt millionUnits],
   [Tok.num, Tok.ws0, Tok.alt millionUnits, Tok.ws0, Tok.lit "وام".data],
   [Tok.lit "قرض".data, Tok.ws0, Tok.num, Tok.ws0, Tok.alt millionUnits]]

/-- `self.time_patterns`. -/
def time_patterns : List (List Tok) :=
  [[Tok.natNum, Tok.ws0, Tok.lit "ماه".data, Tok.ws0,
    Tok.alt ["دیگه".data, "دیگر".data, "آینده".data, "بعد".data]],
   [Tok.natNum, Tok.ws0, Tok.lit "ماه".data, Tok.ws0,
    Tok.alt ["بعد".data, "بعدا".data]],
   [Tok.lit "تا".data, Tok.ws0, Tok.natNum, Tok.ws0, Tok.lit "ماه".data, Tok.ws0,
    Tok.alt ["دیگه".data, "دیگر".data, "آینده".data]]]

/-- `self.location_keywords`. -/
def location_keywords : List String :=
  ["تهران", "اکباتان", "ولیعصر", "تجریش", "ونک", "پاسداران",
   "شهرک غرب", "سعادت آباد", "میرداماد", "گیشا", "جنت آباد"]

/-- `self.location_patterns` (the final group is `(?:\s|$|،|\.)`). -/
def location_patterns : List (List Tok) :=
  [[Tok.alt ["در".data, "از".data, "به".data], Tok.ws0, Tok.dot1, Tok.delimEnd],
   [Tok.lit "منطقه".data, Tok.ws0, Tok.dot1, Tok.delimEnd],
   [Tok.lit "محله".data, Tok.ws0, Tok.dot1, Tok.delimEnd]]

/-- `EntityExtractor._normalize_money`.  The unit check divides by 1000 on a
`هزار`/`k` marker and multiplies by 1000 on a `میلیارد`/`b` marker — the
billion-pattern alternative `بیلیون` is *not* tested here. -/
def normalize_money (value : String) (unit : String := "million") : ℚ :=
  let num_value := parseDecimal (value.data.filter (fun c => c ≠ ','))
  let u := lowerStr unit
  if containsStr "هزار" u || containsStr "k" u then num_value / 1000
  else if containsStr "میلیارد" u || containsStr "b" u then num_value * 1000
  else num_value

/-- `ExtractedEntity` dataclass. -/
structure ExtractedEntity where
  entity_type : String
  value : ℚ
  confidence : ℚ
  start_pos : Nat
  end_pos : Nat
  raw_text : String
  deriving Repr, DecidableEq

/-- `EntityExtractor.extract_money_entities`: every match of every money
pattern, in pattern order then position order, with the whole matched text
passed to `_normalize_money` as the unit. -/
def extract_money_entities (text : String) : List ExtractedEntity :=
  money_patterns.foldl (fun entities p =>
    entities ++ (reFinditer p text).map (fun m =>
      { entity_type := "money"
        value := normalize_money ⟨m.group1⟩ ⟨m.whole⟩
        confidence := 9/10
        start_pos := m.startPos
        end_pos := m.endPos
        raw_text := ⟨m.whole⟩ })) []

/-- `EntityExtractor.extract_loan_info`.  Each pattern's first match
overwrites the accumulator (the source breaks only the inner loop), and the
amount is normalized with the default `million` unit. -/
def extract_loan_info (text : String) : ℚ × Nat :=
  let loan_amount := loan_patterns.foldl (fun acc p =>
    match (reFinditer p text).head? with
    | some m => normalize_money ⟨m.group1⟩
    | none => acc) 0
  let loan_months := time_patterns.foldl (fun acc p =>
    match (reFinditer p text).head? with
    | some m => digitsToNat m.group1
    | none => acc) 0
  (loan_amount, loan_months)

/-- `EntityExtractor.extract_monthly_payment` (same overwrite structure as
the loan loop, default `million` unit). -/
def extract_monthly_payment (text : String) : ℚ :=
  monthly_patterns.foldl (fun acc p =>
    match (reFinditer p text).head? with
    | some m => normalize_money ⟨m.group1⟩
    | none => acc) 0

/-- `EntityExtractor.extract_location`: gazetteer containment plus
pattern captures of length `> 2`, deduplicated (the source's
`list(set(...))` has no guaranteed order; first occurrence is kept here). -/
def extract_location (text : String) : List String :=
  let keyword_locs := location_keywords.filter (fun k => containsStr k text)
  let pattern_locs := location_patterns.foldl (fun locs p =>
    locs ++ (reFinditer p text).filterMap (fun m =>
      let location := stripWs m.group1
      if location ≠ [] ∧ 2 < location.length then some (⟨location⟩ : String)
      else none)) []
  (keyword_locs ++ pattern_locs).eraseDups

/-- The dictionary built by `EntityExtractor.extract_search_type`. -/
structure SearchInfo where
  type : Option SearchGoalType
  search_type : String
  is_rent : Bool
  is_purchase : Bool
  is_lease : Bool
  deriving Repr, DecidableEq

/-- `EntityExtractor.extract_search_type`: the fixed rent → purchase →
vehicle → lease rule chain with last-writer-wins overrides. -/
def extract_search_type (text : String) : SearchInfo :=
  let tl := lowerStr text
  let s0 : SearchInfo := ⟨none, "", false, false, false⟩
  let s1 :=
    if ["رهن", "اجاره", "رهن کامل"].any (fun k => containsStr k tl) then
      { s0 with
        is_rent := true
        type := some SearchGoalType.residential_rent
        search_type := if containsStr "رهن کامل" tl then "رهن کامل" else "رهن و اجاره" }
    else s0
  let s2 :=
    if ["خرید", "تهیه", "بگیرم"].any (fun k => containsStr k tl) then
      { s1 with
        is_purchase := true
        type := if s1.type.isNone then some SearchGoalType.residential_purchase
          else s1.type }
    else s1
  let s3 :=
    if ["ماشین", "خودرو", "اتومبیل"].any (fun k => containsStr k tl) then
      if s2.is_purchase then { s2 with type := some SearchGoalType.vehicle_purchase }
      else if s2.is_lease then { s2 with type := some SearchGoalType.vehicle_lease }
      else s2
    else s2
  let s4 :=
    if ["لیزینگ", "قسط", "اقساط"].any (fun k => containsStr k tl) then
      let s := { s3 with is_lease := true }
      if containsStr "ماشین" tl || containsStr "خودرو" tl then
        { s with type := some SearchGoalType.vehicle_lease }
      else s
    else s3
  s4

/-- The dictionary returned by `EntityExtractor.extract_all_entities`
(`primary_liquidity` defaults to `0` exactly as `build_user_profile`'s
`dict.get` fallback does when no money entity was found). -/
structure Entities where
  money_entities : List ExtractedEntity
  locations : List String
  loan_info : ℚ × Nat
  monthly_payment : ℚ
  search_type : SearchInfo
  primary_liquidity : ℚ
  deriving Repr, DecidableEq

/-- `EntityExtractor.extract_all_entities`. -/
def extract_all_entities (text : String) : Entities :=
  let money := extract_money_entities text
  { money_entities := money
    locations := extract_location text
    loan_info := extract_loan_info text
    monthly_payment := extract_monthly_payment text
    search_type := extract_search_type text
    primary_liquidity :=
      match money.head? with
      | some e => e.value
      | none => 0 }

/-- `EntityExtractor.build_user_profile`. -/
def build_user_profile (entities : Entities) : Except String UserProfile :=
  mkUserProfile entities.primary_liquidity entities.loan_info.1
    entities.loan_info.2 entities.monthly_payment

/-- The budget-source selection chain of `build_search_goals`, evaluated once
before the goal loop. -/
def selectBudgetSource (user_profile : UserProfile) : BudgetSource :=
  if user_profile.loan_amount > 0 ∧ user_profile.liquidity > 0 then
    BudgetSource.liquidity_loan
  else if user_profile.loan_amount > 0 then BudgetSource.loan
  else if user_profile.max_monthly_payment > 0 then BudgetSource.monthly_payment
  else BudgetSource.liquidity

/-- The per-location goal loop of `build_search_goals` (`goal_id` counts up
from 1; the first goal is high priority, the rest medium). -/
def goalsForLocations (locs : List String) (goal_id : Nat) (ty : SearchGoalType)
    (budget_source : BudgetSource) (si : SearchInfo) (up : UserProfile) :
    Except String (List SearchGoal) :=
  match locs with
  | [] => .ok []
  | loc :: rest => do
    let g ← mkSearchGoal goal_id ty loc budget_source
      (if goal_id = 1 then Priority.high else Priority.medium) si.search_type
      none
      (if up.total_budget > 0 then some up.total_budget else none)
      (if up.max_monthly_payment > 0 then some up.max_monthly_payment else none)
    let gs ← goalsForLocations rest (goal_id + 1) ty budget_source si up
    return g :: gs

/-- `EntityExtractor.build_search_goals`.  The `search_type` label comes from
the search-info dictionary, whose key always exists (so the source's
`'عمومی'` fallback never fires); an empty location list yields one general
high-priority goal with an empty location. -/
def build_search_goals (entities : Entities) (user_profile : UserProfile) :
    Except String (List SearchGoal) :=
  let search_info := entities.search_type
  let locations := entities.locations
  let ty := search_info.type.getD SearchGoalType.general
  let budget_source := selectBudgetSource user_profile
  if locations.isEmpty then do
    let g ← mkSearchGoal 1 ty "" budget_source Priority.high search_info.search_type
      none
      (if user_profile.total_budget > 0 then some user_profile.total_budget else none)
      (if user_profile.max_monthly_payment > 0 then some user_profile.max_monthly_payment
        else none)
    return [g]
  else goalsForLocations locations 1 ty budget_source search_info user_profile

/-! ### `src/chatbot/intent_classifier.py` -/

/-- `IntentType` enum. -/
inductive IntentType where
  | search
  | compare
  | advice
  | calculate
  | clarify
  | greeting
  | unknown
  deriving Repr, DecidableEq

/-- `self.intent_keywords`, in dictionary insertion order. -/
def intent_keywords : List (IntentType × List String) :=
  [(IntentType.search,
    ["می‌خواهم", "بخواهم", "بخواهیم", "بررسی", "جستجو", "پیدا کنم",
     "خرید", "تهیه", "بگیرم", "نگاه کنم", "ببینم", "چک کنم"]),
   (IntentType.compare,
    ["مقایسه", "مقایسه کن", "باهم", "کدوم بهتر", "تفاوت",
     "کدام", "کدامیک", "بهتره", "بهترین"]),
   (IntentType.advice,
    ["پیشنهاد", "نظر", "راهنمایی", "کمک", "مشاوره",
     "چطور", "چگونه", "راه", "بهترین راه"]),
   (IntentType.calculate,
    ["محاسبه", "حساب", "چقدر", "میشه", "میتونم",
     "میتوانم", "توانایی", "قدرت خرید"]),
   (IntentType.greeting,
    ["سلام", "درود", "صبح بخیر", "عصر بخیر", "خوبی",
     "چطوری", "چطوره", "هی"])]

/-- `self.patterns`, in dictionary insertion order. -/
def intent_patterns : List (IntentType × List (List Tok)) :=
  [(IntentType.search,
    [[Tok.lit "می‌خواهم".data, Tok.ws1, Tok.dot1, Tok.ws1,
      Tok.alt ["بخواهم".data, "بگیرم".data, "پیدا کنم".data, "خرید".data]],
     [Tok.lit "بخواهم".data, Tok.ws1, Tok.dot1, Tok.ws1,
      Tok.alt ["بررسی".data, "جستجو".data]],
     [Tok.lit "چطور".data, Tok.ws1, Tok.alt ["میتونم".data, "میتوانم".data],
      Tok.ws1, Tok.dot1, Tok.ws1, Tok.alt ["بگیرم".data, "تهیه کنم".data]]]),
   (IntentType.compare,
    [[Tok.lit "مقایسه".data, Tok.ws1, Tok.dot1, Tok.ws1, Tok.lit "با".data,
      Tok.ws1, Tok.dot1],
     [Tok.lit "کدوم".data, Tok.ws1, Tok.dot1, Tok.ws1, Tok.lit "بهتر".data],
     [Tok.lit "تفاوت".data, Tok.ws1, Tok.dot1, Tok.ws1, Tok.lit "با".data,
      Tok.ws1, Tok.dot1]]),
   (IntentType.advice,
    [[Tok.lit "پیشنهاد".data, Tok.ws1, Tok.dot1],
     [Tok.lit "چطور".data, Tok.ws1, Tok.dot1, Tok.ws1,
      Tok.alt ["بکنم".data, "انجام بدهم".data]],
     [Tok.lit "بهترین".data, Tok.ws1, Tok.dot1, Tok.ws1, Tok.lit "برای".data,
      Tok.ws1, Tok.dot1]]),
   (IntentType.calculate,
    [[Tok.lit "چقدر".data, Tok.ws1, Tok.alt ["میتونم".data, "میتوانم".data],
      Tok.ws1, Tok.dot1, Tok.ws1, Tok.alt ["بگیرم".data, "خرید".data]],
     [Tok.lit "با".data, Tok.ws1, Tok.dot1, Tok.ws1, Tok.lit "چقدر".data,
      Tok.ws1, Tok.alt ["میشه".data, "میتونم".data]],
     [Tok.lit "محاسبه".data, Tok.ws1, Tok.dot1]])]

/-- Stable insertion for the stable-sort embedding of Python `sorted`:
`x` is placed before the first element it compares `le` to, so elements
equal under `le` keep their original relative order. -/
def stableInsert (le : α → α → Bool) (x : α) : List α → List α
  | [] => [x]
  | y :: ys => if le x y then x :: y :: ys else y :: stableInsert le x ys

/-- A stable sort (Python `sorted` and `list.sort` are specified as stable;
any stable sort is observationally the same). -/
def stableSort (le : α → α → Bool) (l : List α) : List α :=
  l.foldr (stableInsert le) []

/-- Python `sorted(..., key=lambda x: x[1], reverse=True)`: a stable
descending sort on the score component. -/
def sortByScoreDesc (l : List (IntentType × ℚ)) : List (IntentType × ℚ) :=
  stableSort (fun a b => decide (b.2 ≤ a.2)) l

/-- `IntentClassifier.classify_by_keywords`: per-intent score
`min(matches / len(keywords) * 2, 1.0)` for intents with at least one
keyword contained in the lowered text, sorted by descending score. -/
def classify_by_keywords (text : String) : List (IntentType × ℚ) :=
  let text_lower := lowerStr text
  let scores := intent_keywords.filterMap (fun p =>
    if 0 < (p.2.filter (fun k => containsStr k text_lower)).length then
      some (p.1,
        min (((p.2.filter (fun k => containsStr k text_lower)).length : ℚ) /
          (p.2.length : ℚ) * 2) 1)
    else none)
  sortByScoreDesc scores

/-- `IntentClassifier.classify_by_patterns`: score `0.9` for intents with
at least one matching regex, sorted by descending score. -/
def classify_by_patterns (text : String) : List (IntentType × ℚ) :=
  let scores := intent_patterns.filterMap (fun p =>
    if p.2.any (fun pat => reSearch pat text) then some (p.1, (9 : ℚ) / 10)
    else none)
  sortByScoreDesc scores

/-- Python dict upsert `d[k] = d.get(k, 0.0) + v` preserving insertion
order. -/
def dictAdd (d : List (IntentType × ℚ)) (k : IntentType) (v : ℚ) :
    List (IntentType × ℚ) :=
  if d.any (fun p => decide (p.1 = k)) then
    d.map (fun p => if p.1 = k then (p.1, p.2 + v) else p)
  else d ++ [(k, v)]

/-- The `combined_scores` dict of `IntentClassifier.classify`: keyword
scores weighted `0.6`, then pattern scores weighted `0.4`. -/
def combinedScores (text : String) : List (IntentType × ℚ) :=
  let c1 := (classify_by_keywords text).foldl
    (fun d p => dictAdd d p.1 (p.2 * (6 / 10))) []
  (classify_by_patterns text).foldl
    (fun d p => dictAdd d p.1 (p.2 * (4 / 10))) c1

/-- Python `max(...)` over the dict's values (only used when non-empty). -/
def maxScoreVal : List (IntentType × ℚ) → ℚ
  | [] => 0
  | p :: ps => ps.foldl (fun a q => max a q.2) p.2

/-- The normalization step of `classify`: divide every combined score by the
maximum combined score and cap at `1.0`. -/
def normalizeScores (d : List (IntentType × ℚ)) : List (IntentType × ℚ) :=
  let m := maxScoreVal d
  d.map (fun p => (p.1, min (p.2 / m) 1))

/-- Python `max(items, key=lambda x: x[1])`: the first entry of maximal
score in iteration order. -/
def maxByScore : List (IntentType × ℚ) → IntentType × ℚ
  | [] => (IntentType.unknown, 0)
  | p :: ps => ps.foldl (fun b q => if b.2 < q.2 then q else b) p

/-- `IntentClassifier.classify`. -/
def classify (text : String) : IntentType × ℚ :=
  if (stripStr text).length < 2 then (IntentType.unknown, 0)
  else
    let combined := combinedScores text
    if combined.isEmpty then
      if ["می‌خواهم", "بخواهم", "خرید", "تهیه"].any
          (fun w => containsStr w (lowerStr text)) then
        (IntentType.search, 7 / 10)
      else (IntentType.unknown, 3 / 10)
    else maxByScore (normalizeScores combined)

/-- `IntentClassifier.requires_clarification`. -/
def requires_clarification (intent : IntentType) (confidence : ℚ) : Bool :=
  if confidence < 1 / 2 then true
  else if intent = IntentType.unknown then true
  else false

/-- `IntentClassifier.get_clarification_questions`. -/
def get_clarification_questions (intent : IntentType) (text : String) :
    List String :=
  if intent = IntentType.search then
    (if !containsStr "بودجه" (lowerStr text) && !containsStr "پول" (lowerStr text)
      then ["بودجه شما چقدر است؟"] else []) ++
    (if !containsStr "مکان" (lowerStr text) && !containsStr "منطقه" (lowerStr text)
      then ["در چه منطقه‌ای جستجو کنیم؟"] else [])
  else if intent = IntentType.compare then ["کدام موارد را می‌خواهید مقایسه کنیم؟"]
  else if intent = IntentType.advice then ["در مورد چه موضوعی نیاز به مشاوره دارید؟"]
  else if intent = IntentType.unknown then
    ["لطفاً به صورت دقیق‌تر توضیح دهید که چه می‌خواهید؟"]
  else []

/-! ### `src/chatbot/nlu.py` -/

/-- The dictionary returned by `NLUProcessor.process`. -/
structure NLUResult where
  intent : IntentType
  confidence : ℚ
  entities : Entities
  user_profile : UserProfile
  search_goals : List SearchGoal
  requires_clarification : Bool
  clarification_questions : List String
  is_multi_goal : Bool
  deriving Repr, DecidableEq

/-- `NLUProcessor._calculate_confidence`. -/
def calculate_confidence (intent_confidence : ℚ) (entities : Entities)
    (user_profile : UserProfile) : ℚ :=
  let confidence := intent_confidence * (4 / 10)
  let entity_confidence : ℚ :=
    (if !entities.money_entities.isEmpty then (3 : ℚ) / 10 else 0) +
    (if !entities.locations.isEmpty then (2 : ℚ) / 10 else 0) +
    (if entities.search_type.type.isSome then (1 : ℚ) / 10 else 0)
  let confidence := confidence + entity_confidence * (6 / 10)
  let confidence :=
    if user_profile.total_budget = 0 ∧ user_profile.max_monthly_payment = 0 then
      confidence * (7 / 10)
    else confidence
  min confidence 1

/-- `NLUProcessor.process` (a failed pydantic construction propagates as the
exception the engine catches). -/
def nlu_process (text : String) : Except String NLUResult := do
  let ic := classify text
  let entities := extract_all_entities text
  let user_profile ← build_user_profile entities
  let search_goals ← build_search_goals entities user_profile
  let rc := requires_clarification ic.1 ic.2
  let questions := if rc then get_clarification_questions ic.1 text else []
  let overall := calculate_confidence ic.2 entities user_profile
  return { intent := ic.1
           confidence := overall
           entities := entities
           user_profile := user_profile
           search_goals := search_goals
           requires_clarification := rc
           clarification_questions := questions
           is_multi_goal := decide (1 < search_goals.length) }

/-- `NLUProcessor.build_structured_query`. -/
def build_structured_query (r : NLUResult) : Except String StructuredQuery :=
  mkStructuredQuery r.user_profile r.search_goals r.is_multi_goal r.confidence

/-! ### `src/chatbot/engine.py` -/

/-- `ChatbotResponse` (presentation-only `message` strings are not
modelled). -/
structure ChatbotResponse where
  success : Bool
  query : Option StructuredQuery
  confidence : ℚ
  requires_clarification : Bool
  clarification_questions : List String
  errors : List String
  deriving Repr, DecidableEq

/-- `ChatbotEngine.process_message` with no session and no context: NLU, the
clarification short-circuit, query construction, and the blanket exception
handler that produces the failure envelope. -/
def process_message (text : String) : ChatbotResponse :=
  match nlu_process text with
  | .error e =>
    { success := false
      query := none
      confidence := 0
      requires_clarification := false
      clarification_questions := []
      errors := [e] }
  | .ok r =>
    if r.requires_clarification then
      { success := true
        query := none
        confidence := r.confidence
        requires_clarification := true
        clarification_questions := r.clarification_questions
        errors := [] }
    else
      match build_structured_query r with
      | .error e =>
        { success := false
          query := none
          confidence := 0
          requires_clarification := false
          clarification_questions := []
          errors := [e] }
      | .ok q =>
        { success := true
          query := some q
          confidence := r.confidence
          requires_clarification := false
          clarification_questions := []
          errors := [] }

/-! ### `src/crawler/schemas.py` -/

/-- `CrawledItem` model (`search_query`, unused downstream, is omitted;
`crawled_at` is kept as its serialised form). -/
structure CrawledItem where
  item_id : String
  source_site : String
  title : String
  description : Option String
  url : String
  price : Option ℚ
  price_text : Option String
  price_type : Option String
  location : Option String
  city : Option String
  district : Option String
  images : List String
  thumbnail : Option String
  properties : List (String × String)
  crawled_at : String
  goal_id : Option Nat
  confidence_score : ℚ
  completeness_score : ℚ
  deriving Repr, DecidableEq

/-- `CrawlResult` model. -/
structure CrawlResult where
  success : Bool
  site_name : String
  items : List CrawledItem
  total_items : Nat
  execution_time : ℚ
  errors : List String
  deriving Repr, DecidableEq

/-- `CrawlBatchResult` model. -/
structure CrawlBatchResult where
  success : Bool
  results : List CrawlResult
  total_items : Nat
  execution_time : ℚ
  deriving Repr, DecidableEq

/-! ### `src/crawler/base_crawler.py` -/

/-- A raw extracted record (a Python dict). -/
abbrev RawItem := List (String × String)

/-- Search filters (a Python dict). -/
abbrev Filters := List (String × String)

/-- The three-operation Site Adapter contract the orchestrator sees.
`extract_items` is total (the concrete crawlers catch and skip per-card
errors internally); `normalize_item` may fail per record. -/
structure SiteAdapter where
  site_name : String
  build_search_url : Filters → String
  extract_items : String → List RawItem
  normalize_item : RawItem → Option Nat → Except String CrawledItem

/-- `BaseCrawler._fetch_with_requests`: the outcome of each transport
attempt is an environment parameter; the loop returns the first successful
attempt among `retry_times` tries and `None` once retries are exhausted
(the inter-attempt backoff sleep has no observable effect here). -/
def fetch_with_requests (retry_times : Nat) (attempts : Nat → Option String) :
    Option String :=
  (List.range retry_times).findSome? attempts

/-- The `if not html_content` truthiness test in `BaseCrawler.crawl`:
a missing page or an empty page body counts as a fetch failure. -/
def fetchFailed : Option String → Bool
  | none => true
  | some s => s.isEmpty

/-- The per-record normalization loop of `BaseCrawler.crawl`: failures are
recorded in `errors` and skipped, successes are appended in order. -/
def normalizeRecords (a : SiteAdapter) (goal_id : Option Nat)
    (raw_items : List RawItem) : List CrawledItem × List String :=
  raw_items.foldl (fun acc raw =>
    match a.normalize_item raw goal_id with
    | .ok item => (acc.1 ++ [item], acc.2)
    | .error e => (acc.1, acc.2 ++ ["Normalization error: " ++ e])) ([], [])

/-- `BaseCrawler.crawl` (wall-clock `execution_time` is not modelled). -/
def crawl (a : SiteAdapter) (retry_times : Nat) (attempts : Nat → Option String)
    (filters : Filters) (goal_id : Option Nat) : CrawlResult :=
  let _search_url := a.build_search_url filters
  let html_content := fetch_with_requests retry_times attempts
  if fetchFailed html_content then
    { success := false
      site_name := a.site_name
      items := []
      total_items := 0
      execution_time := 0
      errors := ["Failed to fetch page content"] }
  else
    let raw_items := a.extract_items (html_content.getD "")
    let ne := normalizeRecords a goal_id raw_items
    { success := true
      site_name := a.site_name
      items := ne.1
      total_items := ne.1.length
      execution_time := 0
      errors := ne.2 }

/-! ### `src/crawler/crawler_manager.py` -/

/-- One entry of the query list handed to `CrawlerManager.crawl_batch`. -/
structure CrawlQuery where
  site : String
  filters : Filters
  goal_id : Option Nat

/-- `CrawlerManager.crawl_batch`: one `CrawlResult` per query (via
`crawl_site`, abstracted as a function parameter), overall success iff any
constituent succeeded, `total_items` the sum over constituents.  The
sequential path preserves submission order; the parallel path only permutes
`results`, which leaves both aggregates unchanged. -/
def crawl_batch (crawl_site : CrawlQuery → CrawlResult)
    (queries : List CrawlQuery) : CrawlBatchResult :=
  let results := queries.map crawl_site
  { success := results.any (fun r => r.success)
    results := results
    total_items := (results.map (fun r => r.total_items)).sum
    execution_time := 0 }

/-! ### `src/crawler/data_normalizer.py` -/

/-- The dict produced by `DataNormalizer._normalize_item` (the final
`None`-stripping of the emitted JSON is presentational and not modelled). -/
structure NormalizedItem where
  item_id : String
  source_site : String
  title : String
  description : Option String
  url : String
  price : Option ℚ
  price_text : Option String
  price_type : Option String
  location : Option String
  city : Option String
  district : Option String
  images : List String
  thumbnail : Option String
  properties : List (String × String)
  goal_id : Option Nat
  confidence_score : ℚ
  completeness_score : ℚ
  crawled_at : String
  deriving Repr, DecidableEq

/-- Python truthiness of an optional string. -/
def optStrTruthy : Option String → Bool
  | some s => !s.isEmpty
  | none => false

/-- Python truthiness of an optional float. -/
def optPriceTruthy : Option ℚ → Bool
  | some p => decide (p ≠ 0)
  | none => false

/-- Python `str.split()` with no argument: maximal non-whitespace runs,
empties discarded (`acc` accumulates the current word reversed). -/
def wordsAux : List Char → List Char → List (List Char)
  | [], acc => if acc.isEmpty then [] else [acc.reverse]
  | c :: cs, acc =>
    if isWs c then
      if acc.isEmpty then wordsAux cs [] else acc.reverse :: wordsAux cs []
    else wordsAux cs (c :: acc)

/-- The words of a char list. -/
def wordsOf (s : List Char) : List (List Char) := wordsAux s []

/-- `DataNormalizer._normalize_text`: `' '.join(text.split())`, then a
`strip` that is a no-op on that join. -/
def normalize_text (text : String) : String :=
  if text.isEmpty then ""
  else String.intercalate " " ((wordsOf text.data).map (fun w => (⟨w⟩ : String)))

/-- `DataNormalizer._normalize_location`. -/
def normalize_location (location : String) : String :=
  if location.isEmpty then ""
  else
    let location_lower := lowerStr location
    if location_lower = "تهران" ∨ location_lower = "tehran" ∨
        location_lower = "tehran city" then "تهران"
    else ⟨stripWs location.data⟩

/-- `DataNormalizer._calculate_completeness`: weighted field presence over
denominator `10.0`, capped at `1`. -/
def calculate_completeness (item : CrawledItem) : ℚ :=
  let score : ℚ :=
    (if !item.title.isEmpty then 1 else 0) +
    (if !item.url.isEmpty then 1 else 0) +
    (if optPriceTruthy item.price || optStrTruthy item.price_text then (3 : ℚ) / 2 else 0) +
    (if optStrTruthy item.location then 1 else 0) +
    (if !item.images.isEmpty then 1 else 0) +
    (if optStrTruthy item.description then (1 : ℚ) / 2 else 0) +
    (if optStrTruthy item.city then (1 : ℚ) / 2 else 0) +
    (if optStrTruthy item.district then (1 : ℚ) / 2 else 0) +
    (if !item.properties.isEmpty then 1 else 0)
  min (score / 10) 1

/-- `DataNormalizer._normalize_item` (total: with well-typed fields the
`except` branch is unreachable). -/
def normalize_item_fn (item : CrawledItem) : NormalizedItem :=
  { item_id := item.item_id
    source_site := item.source_site
    title := normalize_text item.title
    description :=
      match item.description with
      | some d => if d.isEmpty then none else some (normalize_text d)
      | none => none
    url := item.url
    price := item.price
    price_text := item.price_text
    price_type := item.price_type
    location :=
      match item.location with
      | some l => if l.isEmpty then none else some (normalize_location l)
      | none => none
    city := item.city
    district := item.district
    images := item.images
    thumbnail := item.thumbnail
    properties := item.properties
    goal_id := item.goal_id
    confidence_score := item.confidence_score
    completeness_score := calculate_completeness item
    crawled_at := item.crawled_at }

/-- The item-collection loop of `normalize_batch`: items of successful
results, concatenated in order. -/
def collectItems (results : List CrawlResult) : List CrawledItem :=
  (results.filter (fun r => r.success)).foldl (fun acc r => acc ++ r.items) []

/-- The dedup-and-normalize loop of `normalize_batch`: the first item seen
for each URL is kept and normalized, later duplicates are silently
dropped. -/
def dedupNormalizeLoop : List CrawledItem → List String → List NormalizedItem
  | [], _ => []
  | item :: rest, seen_urls =>
    if item.url ∈ seen_urls then dedupNormalizeLoop rest seen_urls
    else normalize_item_fn item :: dedupNormalizeLoop rest (item.url :: seen_urls)

/-- The comparator of the final sort: stable descending order on the pair
`(confidence_score, completeness_score)`. -/
def keyLe (a b : NormalizedItem) : Bool :=
  decide (b.confidence_score < a.confidence_score ∨
    (b.confidence_score = a.confidence_score ∧
      b.completeness_score ≤ a.completeness_score))

/-- The JSON structure returned by `normalize_batch` (`metadata` fields are
inlined; the timestamp is not modelled). -/
structure NormalizedOutput where
  success : Bool
  total_items : Nat
  items : List NormalizedItem
  sources : List String
  normalization_applied : Bool
  duplicates_removed : Nat
  deriving Repr, DecidableEq

/-- `DataNormalizer.normalize_batch` (the source's `set(...)` of sources has
no guaranteed order; first occurrence is kept here). -/
def normalize_batch (batch_result : CrawlBatchResult) : NormalizedOutput :=
  let all_items := collectItems batch_result.results
  let normalized_items := dedupNormalizeLoop all_items []
  let sorted_items := stableSort keyLe normalized_items
  { success := true
    total_items := sorted_items.length
    items := sorted_items
    sources := (sorted_items.map (fun i => i.source_site)).eraseDups
    normalization_applied := true
    duplicates_removed := all_items.length - normalized_items.length }

/-! ### Concrete evaluation support

The core `Rat` operations are `@[irreducible]`, which blocks the `decide`
elaboration of concrete pipeline runs; the kernel itself checks such proofs
by full reduction regardless of reducibility attributes, so re-flagging them
semireducible (locally, for this file's elaboration only) is sound. -/

set_option allowUnsafeReducibility true

attribute [local semireducible] Rat.add Rat.mul Rat.div Rat.sub Rat.inv
  Rat.normalize Rat.blt Rat.neg

/-! ### Theorems: C10, C5, C2 -/

/-- C10: for every `CrawledItem`, the recomputed completeness score is at
most `0.8`: the field-presence weights sum to `8.0` while the normalization
denominator is `10.0`, so the nominal upper bound `1.0` is never attained. -/
theorem C10_completeness_le_point_eight (item : CrawledItem) :
    calculate_completeness item ≤ 4 / 5 := by
  unfold calculate_completeness
  refine le_trans (min_le_left _ _) ?_
  rw [div_le_iff₀ (by norm_num : (0 : ℚ) < 10)]
  have h : (4 : ℚ) / 5 * 10 = 8 := by norm_num
  rw [h]
  split_ifs <;> norm_num

/-- C5: `crawl_batch` returns a batch whose `success` is true iff at least
one constituent `CrawlResult` succeeded, and whose `total_items` is the sum
of `total_items` over the constituent results. -/
theorem C5_crawl_batch_aggregates (crawl_site : CrawlQuery → CrawlResult)
    (queries : List CrawlQuery) :
    ((crawl_batch crawl_site queries).success = true ↔
      ∃ r ∈ (crawl_batch crawl_site queries).results, r.success = true) ∧
    (crawl_batch crawl_site queries).total_items =
      ((crawl_batch crawl_site queries).results.map
        (fun r => r.total_items)).sum := by
  constructor
  · simp only [crawl_batch, List.any_eq_true]
  · rfl

/-- The normalization fold of `BaseCrawler.crawl`, over any accumulator:
successful records append to the item list in order, failing records append
their `"Normalization error: ..."` message to the error list in order. -/
theorem normalizeRecords_foldl_spec (a : SiteAdapter) (goal_id : Option Nat)
    (raw_items : List RawItem) (acc : List CrawledItem × List String) :
    raw_items.foldl (fun acc raw =>
      match a.normalize_item raw goal_id with
      | .ok item => (acc.1 ++ [item], acc.2)
      | .error e => (acc.1, acc.2 ++ ["Normalization error: " ++ e])) acc =
    (acc.1 ++ raw_items.filterMap (fun raw =>
        match a.normalize_item raw goal_id with
        | .ok item => some item
        | .error _ => none),
      acc.2 ++ raw_items.filterMap (fun raw =>
        match a.normalize_item raw goal_id with
        | .ok _ => none
        | .error e => some ("Normalization error: " ++ e))) := by
  induction raw_items generalizing acc with
  | nil => simp
  | cons raw rest ih =>
    rw [List.foldl_cons, ih]
    cases h : a.normalize_item raw goal_id with
    | ok item => simp [h]
    | error e => simp [h]

/-- `normalizeRecords` returns exactly the successfully normalized items in
record order, paired with one `"Normalization error: ..."` message per
failing record, in record order. -/
theorem normalizeRecords_spec (a : SiteAdapter) (goal_id : Option Nat)
    (raw_items : List RawItem) :
    normalizeRecords a goal_id raw_items =
    (raw_items.filterMap (fun raw =>
        match a.normalize_item raw goal_id with
        | .ok item => some item
        | .error _ => none),
      raw_items.filterMap (fun raw =>
        match a.normalize_item raw goal_id with
        | .ok _ => none
        | .error e => some ("Normalization error: " ++ e))) := by
  rw [normalizeRecords, normalizeRecords_foldl_spec]
  simp

/-- C2: a single-source `crawl` returns `success = false` exactly when the
fetch step failed (no page content after the retries); on fetch failure the
items are empty and the failure message is recorded; and on a successful
fetch `success` stays `true` while every per-record normalization failure
is appended to `errors` (the errors list is exactly the
`"Normalization error: ..."` messages of the failing extracted records, in
order, and the items are exactly the successfully normalized records). -/
theorem C2_crawl_success_semantics (a : SiteAdapter) (retry_times : Nat)
    (attempts : Nat → Option String) (filters : Filters) (goal_id : Option Nat) :
    ((crawl a retry_times attempts filters goal_id).success = false ↔
      fetchFailed (fetch_with_requests retry_times attempts) = true) ∧
    (fetchFailed (fetch_with_requests retry_times attempts) = true →
      (crawl a retry_times attempts filters goal_id).items = [] ∧
      (crawl a retry_times attempts filters goal_id).errors =
        ["Failed to fetch page content"]) ∧
    (fetchFailed (fetch_with_requests retry_times attempts) = false →
      (crawl a retry_times attempts filters goal_id).success = true ∧
      (crawl a retry_times attempts filters goal_id).errors =
        ((a.extract_items
            ((fetch_with_requests retry_times attempts).getD "")).filterMap
          (fun raw =>
            match a.normalize_item raw goal_id with
            | .ok _ => none
            | .error e => some ("Normalization error: " ++ e))) ∧
      (crawl a retry_times attempts filters goal_id).items =
        ((a.extract_items
            ((fetch_with_requests retry_times attempts).getD "")).filterMap
          (fun raw =>
            match a.normalize_item raw goal_id with
            | .ok item => some item
            | .error _ => none))) := by
  unfold crawl
  cases h : fetchFailed (fetch_with_requests retry_times attempts) <;>
    simp [h, normalizeRecords_spec]

/-! ### Theorems: C3 -/

/-- C3 counterexample: with `min_price = 5` and `max_price = 0` — both
supplied, `max_price < min_price` — construction *succeeds*, because the
validator's truthiness guard skips the comparison when either price is
`0.0`; the produced goal violates `max_price ≥ min_price`. -/
theorem C3_counterexample :
    mkSearchGoal 1 SearchGoalType.general "" BudgetSource.liquidity
      Priority.high "" (some 5) (some 0) none [] =
    Except.ok
      { goal_id := 1
        type := SearchGoalType.general
        target_location := ""
        budget_source := BudgetSource.liquidity
        priority := Priority.high
        search_type := ""
        min_price := some 5
        max_price := some 0
        max_monthly_lease_payment := none
        additional_filters := [] } ∧
    (0 : ℚ) < 5 :=
  ⟨rfl, by norm_num⟩

/-- C3 (amended): construction fails when both prices are supplied, both
are nonzero, and `max_price < min_price`; consequently every successfully
constructed goal with both prices present and nonzero satisfies
`min_price ≤ max_price`. -/
theorem C3_amended (goal_id : Nat) (ty : SearchGoalType) (loc : String)
    (src : BudgetSource) (prio : Priority) (stype : String)
    (minP maxP lease : Option ℚ) (filters : List (String × String)) :
    (∀ mn mx, minP = some mn → maxP = some mx → mn ≠ 0 → mx ≠ 0 → mx < mn →
      (mkSearchGoal goal_id ty loc src prio stype minP maxP lease
        filters).isOk = false) ∧
    (∀ g mn mx,
      mkSearchGoal goal_id ty loc src prio stype minP maxP lease filters =
        Except.ok g →
      g.min_price = some mn → g.max_price = some mx → mn ≠ 0 → mx ≠ 0 →
      mn ≤ mx) := by
  constructor
  · rintro mn mx rfl rfl hmn hmx hlt
    have hpr : priceRangeInvalid (some mn) (some mx) = true := by
      simp [priceRangeInvalid, hmn, hmx, hlt]
    unfold mkSearchGoal
    rw [hpr]
    split_ifs <;> simp_all [Except.isOk, Except.toBool]
  · intro g mn mx hok hmin hmax hmn hmx
    unfold mkSearchGoal at hok
    split_ifs at hok with h1 h2 h3 h4
    cases hok
    simp only at hmin hmax
    rw [hmin, hmax] at h3
    simp [priceRangeInvalid, hmn, hmx] at h3
    exact h3

/-! ### Theorems: C7 -/

/-- C7: `_normalize_money` divides by 1000 on the thousand units
(`هزار`, `k`), multiplies by 1000 on `میلیارد` and `b`, and leaves the
million units (`میلیون`, `ملیون`, `م`, `M`), the bare-currency units
(`تومان`, `تومن`) and the default unit unchanged — but the billion-pattern
alternative `بیلیون` is *not* recognised by the conversion, so a value
matched by the billion pattern through that token is returned unscaled
(the failing case of the claim, shown on the full extraction of
`"5 بیلیون تومان"`). -/
theorem C7_normalize_money_unit_table :
    normalize_money "5" "هزار" = 5 / 1000 ∧
    normalize_money "5" "k" = 5 / 1000 ∧
    normalize_money "5" "میلیون" = 5 ∧
    normalize_money "5" "ملیون" = 5 ∧
    normalize_money "5" "م" = 5 ∧
    normalize_money "5" "M" = 5 ∧
    normalize_money "5" "تومان" = 5 ∧
    normalize_money "5" "تومن" = 5 ∧
    normalize_money "5" "میلیارد" = 5 * 1000 ∧
    normalize_money "5" "b" = 5 * 1000 ∧
    normalize_money "5" = 5 ∧
    normalize_money "5" "بیلیون" = 5 ∧
    (extract_money_entities "5 بیلیون تومان").map (fun e => e.value) = [5] := by
  decide

/-! ### Theorems: C6 -/

theorem mkSearchGoal_ok_fields {goal_id ty loc src prio stype minP maxP lease
    filters g} (h : mkSearchGoal goal_id ty loc src prio stype minP maxP lease
      filters = Except.ok g) :
    g.budget_source = src := by
  unfold mkSearchGoal at h
  split_ifs at h
  cases h
  rfl

theorem goalsForLocations_budget_source {locs : List String} {gid : Nat}
    {ty : SearchGoalType} {bs : BudgetSource} {si : SearchInfo}
    {up : UserProfile} {goals : List SearchGoal}
    (h : goalsForLocations locs gid ty bs si up = Except.ok goals) :
    ∀ g ∈ goals, g.budget_source = bs := by
  induction locs generalizing gid goals with
  | nil =>
    unfold goalsForLocations at h
    cases h
    intro g hg
    cases hg
  | cons loc rest ih =>
    unfold goalsForLocations at h
    cases hmk : mkSearchGoal gid ty loc bs
        (if gid = 1 then Priority.high else Priority.medium) si.search_type none
        (if up.total_budget > 0 then some up.total_budget else none)
        (if up.max_monthly_payment > 0 then some up.max_monthly_payment
          else none) [] with
    | error e =>
      rw [hmk] at h
      simp [Bind.bind, Except.bind] at h
    | ok g0 =>
      rw [hmk] at h
      cases hrec : goalsForLocations rest (gid + 1) ty bs si up with
      | error e =>
        rw [hrec] at h
        simp [Bind.bind, Except.bind] at h
      | ok gs =>
        rw [hrec] at h
        simp only [Bind.bind, Except.bind, pure, Except.pure,
          Except.ok.injEq] at h
        subst h
        intro g hg
        cases hg with
        | head => exact mkSearchGoal_ok_fields hmk
        | tail _ hmem => exact ih hrec g hmem

theorem build_search_goals_budget_source {entities : Entities}
    {up : UserProfile} {goals : List SearchGoal}
    (h : build_search_goals entities up = Except.ok goals) :
    ∀ g ∈ goals, g.budget_source = selectBudgetSource up := by
  simp only [build_search_goals] at h
  split at h
  · cases hmk : mkSearchGoal 1 (entities.search_type.type.getD SearchGoalType.general)
        "" (selectBudgetSource up) Priority.high entities.search_type.search_type none
        (if up.total_budget > 0 then some up.total_budget else none)
        (if up.max_monthly_payment > 0 then some up.max_monthly_payment
          else none) [] with
    | error e =>
      rw [hmk] at h
      simp [Bind.bind, Except.bind] at h
    | ok g0 =>
      rw [hmk] at h
      simp only [Bind.bind, Except.bind, pure, Except.pure,
        Except.ok.injEq] at h
      subst h
      intro g hg
      cases hg with
      | head => exact mkSearchGoal_ok_fields hmk
      | tail _ hmem => cases hmem
  · exact goalsForLocations_budget_source h

/-- C6: every goal produced by `build_search_goals` carries the budget
source selected by the fixed chain over the user profile: both loan and
liquidity positive → liquidity+loan; loan positive (liquidity not) → loan;
loan not positive but monthly payment positive → monthly-payment;
otherwise → liquidity. -/
theorem C6_budget_source_chain (entities : Entities) (up : UserProfile)
    (goals : List SearchGoal)
    (h : build_search_goals entities up = Except.ok goals) :
    ∀ g ∈ goals,
      (0 < up.loan_amount ∧ 0 < up.liquidity →
        g.budget_source = BudgetSource.liquidity_loan) ∧
      (0 < up.loan_amount ∧ ¬ 0 < up.liquidity →
        g.budget_source = BudgetSource.loan) ∧
      (¬ 0 < up.loan_amount ∧ 0 < up.max_monthly_payment →
        g.budget_source = BudgetSource.monthly_payment) ∧
      (¬ 0 < up.loan_amount ∧ ¬ 0 < up.max_monthly_payment →
        g.budget_source = BudgetSource.liquidity) := by
  intro g hg
  have hbs := build_search_goals_budget_source h g hg
  rw [hbs]
  unfold selectBudgetSource
  refine ⟨fun hc => ?_, fun hc => ?_, fun hc => ?_, fun hc => ?_⟩ <;>
    split_ifs with h1 h2 h3 <;> tauto

/-- Concrete entities for the C6 witness: a loan of 1 and liquidity of 2. -/
def entC6 : Entities :=
  { money_entities := []
    locations := []
    loan_info := (1, 0)
    monthly_payment := 0
    search_type := ⟨none, "", false, false, false⟩
    primary_liquidity := 2 }

/-- The profile built from `entC6`. -/
def upC6 : UserProfile := ⟨2, 1, 0, 0, 0⟩

/-- The goal `build_search_goals entC6 upC6` produces. -/
def gC6 : SearchGoal :=
  { goal_id := 1
    type := SearchGoalType.general
    target_location := ""
    budget_source := BudgetSource.liquidity_loan
    priority := Priority.high
    search_type := ""
    min_price := none
    max_price := some 3
    max_monthly_lease_payment := none
    additional_filters := [] }

/-- C6 witness: with loan and liquidity both positive the produced goal's
budget source is liquidity+loan. -/
theorem C6_budget_source_chain_witness :
    gC6.budget_source = BudgetSource.liquidity_loan :=
  (C6_budget_source_chain entC6 upC6 [gC6] rfl gC6 (List.Mem.head _)).1
    (by decide)

/-! ### Theorems: C4 -/

/-- The urls of an item list, in order. -/
def urlsOf (l : List CrawledItem) : List String := l.map (fun i => i.url)

/-- The item-level view of the dedup loop: the first item seen for each URL
is kept. -/
def keepFirstByUrl : List CrawledItem → List String → List CrawledItem
  | [], _ => []
  | item :: rest, seen =>
    if item.url ∈ seen then keepFirstByUrl rest seen
    else item :: keepFirstByUrl rest (item.url :: seen)

theorem dedupNormalizeLoop_eq_map (l : List CrawledItem) (seen : List String) :
    dedupNormalizeLoop l seen = (keepFirstByUrl l seen).map normalize_item_fn := by
  induction l generalizing seen with
  | nil => rfl
  | cons item rest ih =>
    unfold dedupNormalizeLoop keepFirstByUrl
    split <;> simp [ih]

theorem keepFirst_filter_of_seen (l : List CrawledItem) (seen : List String)
    (v : String) (hv : v ∈ seen) :
    (keepFirstByUrl l seen).filter (fun i => i.url == v) = [] := by
  induction l generalizing seen with
  | nil => rfl
  | cons item rest ih =>
    unfold keepFirstByUrl
    by_cases h : item.url ∈ seen
    · rw [if_pos h]
      exact ih seen hv
    · rw [if_neg h, List.filter_cons]
      have hne : (item.url == v) = false := by
        simp only [beq_eq_false_iff_ne]
        exact fun he => h (he ▸ hv)
      rw [hne]
      simp only [Bool.false_eq_true, if_false]
      exact ih (item.url :: seen) (List.mem_cons_of_mem _ hv)

theorem keepFirst_filter_find (l : List CrawledItem) (seen : List String)
    (v : String) (hv : v ∉ seen) :
    (keepFirstByUrl l seen).filter (fun i => i.url == v) =
      (l.find? (fun i => i.url == v)).toList := by
  induction l generalizing seen with
  | nil => rfl
  | cons item rest ih =>
    by_cases hu : item.url = v
    · subst hu
      unfold keepFirstByUrl
      rw [if_neg hv, List.filter_cons]
      have ht : (item.url == item.url) = true := by simp
      rw [ht]
      simp only [if_true]
      rw [List.find?_cons, ht,
        keepFirst_filter_of_seen rest _ _ (List.mem_cons_self _ _)]
      rfl
    · have hne : (item.url == v) = false := by
        simp only [beq_eq_false_iff_ne]
        exact hu
      have hfind : (item :: rest).find? (fun i => i.url == v) =
          rest.find? (fun i => i.url == v) := by
        rw [List.find?_cons, hne]
      unfold keepFirstByUrl
      by_cases h : item.url ∈ seen
      · rw [if_pos h, hfind]
        exact ih seen hv
      · rw [if_neg h, List.filter_cons, hne]
        simp only [Bool.false_eq_true, if_false]
        rw [hfind]
        refine ih (item.url :: seen) ?_
        intro hc
        rcases List.mem_cons.mp hc with he | hs
        · exact hu he.symm
        · exact hv hs

theorem keepFirst_length (l : List CrawledItem) (seen : List String) :
    (keepFirstByUrl l seen).length =
      ((urlsOf l).filter (fun u => decide (u ∉ seen))).toFinset.card := by
  induction l generalizing seen with
  | nil => simp [keepFirstByUrl, urlsOf]
  | cons item rest ih =>
    unfold keepFirstByUrl
    have hcons : urlsOf (item :: rest) = item.url :: urlsOf rest := rfl
    by_cases h : item.url ∈ seen
    · rw [if_pos h]
      have hd : (decide (item.url ∉ seen)) = false := by simpa using h
      simp only [hcons, List.filter_cons, hd, Bool.false_eq_true, if_false]
      exact ih seen
    · rw [if_neg h]
      have hd : (decide (item.url ∉ seen)) = true := by simpa using h
      simp only [hcons, List.filter_cons, hd, if_true, List.length_cons]
      rw [ih (item.url :: seen)]
      have hset :
          ((urlsOf rest).filter
              (fun u => decide (u ∉ item.url :: seen))).toFinset =
            ((urlsOf rest).filter
              (fun u => decide (u ∉ seen))).toFinset.erase item.url := by
        ext x
        simp only [List.mem_toFinset, List.mem_filter, Finset.mem_erase,
          List.mem_cons, decide_eq_true_eq]
        constructor
        · rintro ⟨hx, hns⟩
          exact ⟨fun he => hns (Or.inl he), hx, fun hs => hns (Or.inr hs)⟩
        · rintro ⟨hne, hx, hns⟩
          exact ⟨hx, fun hc => hc.elim (fun he => hne he) hns⟩
      rw [hset]
      have hins :
          insert item.url
              ((urlsOf rest).filter (fun u => decide (u ∉ seen))).toFinset =
            insert item.url
              (((urlsOf rest).filter
                (fun u => decide (u ∉ seen))).toFinset.erase item.url) := by
        ext x
        simp only [Finset.mem_insert, Finset.mem_erase]
        constructor
        · rintro (rfl | hx)
          · exact Or.inl rfl
          · by_cases hxe : x = item.url
            · exact Or.inl hxe
            · exact Or.inr ⟨hxe, hx⟩
        · rintro (rfl | ⟨-, hx⟩)
          · exact Or.inl rfl
          · exact Or.inr hx
      rw [List.toFinset_cons, hins,
        Finset.card_insert_of_not_mem (Finset.not_mem_erase _ _)]

theorem stableInsert_perm {α : Type} (le : α → α → Bool) (x : α) (l : List α) :
    (stableInsert le x l).Perm (x :: l) := by
  induction l with
  | nil => exact List.Perm.refl _
  | cons y ys ih =>
    unfold stableInsert
    split
    · exact List.Perm.refl _
    · exact (List.Perm.cons y ih).trans (List.Perm.swap x y ys)

theorem stableSort_perm {α : Type} (le : α → α → Bool) (l : List α) :
    (stableSort le l).Perm l := by
  induction l with
  | nil => exact List.Perm.refl _
  | cons x xs ih =>
    exact (stableInsert_perm le x _).trans (List.Perm.cons x ih)

theorem dup_count_card {L : List String} {u : String}
    (h2 : L.count u = 2) (hnd : (L.erase u).Nodup) :
    L.toFinset.card + 1 = L.length := by
  have hu_mem : u ∈ L := by
    have : 0 < L.count u := by omega
    exact List.count_pos_iff.mp this
  have hone : ∀ v ∈ L.toFinset.erase u, L.count v = 1 := by
    intro v hv
    obtain ⟨hvne, hvmem⟩ := Finset.mem_erase.mp hv
    have hmem : v ∈ L := List.mem_toFinset.mp hvmem
    have hle : L.count v ≤ 1 := by
      have hc := List.nodup_iff_count_le_one.mp hnd v
      rw [List.count_erase_of_ne hvne] at hc
      exact hc
    have hge : 1 ≤ L.count v := List.count_pos_iff.mpr hmem
    omega
  have hsum : ∑ a ∈ L.toFinset, L.count a = L.length := by
    have hm := Multiset.toFinset_sum_count_eq (L : Multiset String)
    simpa using hm
  rw [← Finset.add_sum_erase _ _ (List.mem_toFinset.mpr hu_mem), h2] at hsum
  have herase : ∑ v ∈ L.toFinset.erase u, L.count v =
      (L.toFinset.erase u).card := by
    rw [Finset.sum_congr rfl hone, Finset.sum_const, smul_eq_mul, mul_one]
  rw [herase, Finset.card_erase_of_mem (List.mem_toFinset.mpr hu_mem)] at hsum
  have hpos : 0 < L.toFinset.card :=
    Finset.card_pos.mpr ⟨u, List.mem_toFinset.mpr hu_mem⟩
  omega

/-- C4: when exactly two collected items share a URL and all other URLs are
distinct, `normalize_batch` keeps exactly the first item encountered for
that URL (in concatenation order) and reports `duplicates_removed = 1`. -/
theorem C4_duplicate_url_first_wins (b : CrawlBatchResult) (u : String)
    (it : CrawledItem)
    (h2 : (urlsOf (collectItems b.results)).count u = 2)
    (hnd : ((urlsOf (collectItems b.results)).erase u).Nodup)
    (hit : (collectItems b.results).find? (fun i => i.url == u) = some it) :
    (normalize_batch b).items.filter (fun x => x.url == u) =
      [normalize_item_fn it] ∧
    (normalize_batch b).duplicates_removed = 1 := by
  have hitems : (normalize_batch b).items =
      stableSort keyLe (dedupNormalizeLoop (collectItems b.results) []) := rfl
  have hloop := dedupNormalizeLoop_eq_map (collectItems b.results) []
  constructor
  · have hperm : ((stableSort keyLe
        (dedupNormalizeLoop (collectItems b.results) [])).filter
          (fun x => x.url == u)).Perm
        ((dedupNormalizeLoop (collectItems b.results) []).filter
          (fun x => x.url == u)) :=
      (stableSort_perm keyLe _).filter _
    have hr : (dedupNormalizeLoop (collectItems b.results) []).filter
        (fun x => x.url == u) = [normalize_item_fn it] := by
      rw [hloop, List.filter_map]
      have hpf : ((fun x : NormalizedItem => x.url == u) ∘ normalize_item_fn) =
          (fun i : CrawledItem => i.url == u) := rfl
      rw [hpf, keepFirst_filter_find (collectItems b.results) [] u
        (by simp), hit]
      rfl
    rw [hr] at hperm
    rw [hitems]
    exact List.perm_singleton.mp hperm
  · have hdup : (normalize_batch b).duplicates_removed =
        (collectItems b.results).length -
          (dedupNormalizeLoop (collectItems b.results) []).length := rfl
    rw [hdup, hloop, List.length_map, keepFirst_length]
    have hfil : (urlsOf (collectItems b.results)).filter
        (fun v => decide (v ∉ ([] : List String))) =
          urlsOf (collectItems b.results) := by
      simp
    rw [hfil]
    have hcard := dup_count_card h2 hnd
    have hlen : (urlsOf (collectItems b.results)).length =
        (collectItems b.results).length := List.length_map _ _
    omega


/-- A baseline concrete item for the C4 and C8 witnesses. -/
def itemA : CrawledItem :=
  { item_id := "a"
    source_site := "divar"
    title := "t1"
    description := none
    url := "https://divar.ir/a"
    price := some 100
    price_text := none
    price_type := none
    location := none
    city := none
    district := none
    images := []
    thumbnail := none
    properties := []
    crawled_at := ""
    goal_id := none
    confidence_score := 9 / 10
    completeness_score := 1 }

/-- Second concrete item (the first occurrence of the duplicated URL). -/
def itemB : CrawledItem :=
  { itemA with item_id := "b", url := "https://divar.ir/b", title := "t2" }

/-- Third concrete item, from another source, sharing `itemB`'s URL. -/
def itemC : CrawledItem :=
  { itemA with
    item_id := "c"
    source_site := "sheypoor"
    url := "https://divar.ir/b"
    title := "t3" }

/-- A concrete two-source batch in which exactly `itemB` and `itemC` share
a URL. -/
def batchC4 : CrawlBatchResult :=
  { success := true
    results :=
      [{ success := true, site_name := "divar", items := [itemA, itemB],
         total_items := 2, execution_time := 0, errors := [] },
       { success := true, site_name := "sheypoor", items := [itemC],
         total_items := 1, execution_time := 0, errors := [] }]
    total_items := 3
    execution_time := 0 }

/-- C4 witness: on `batchC4` the duplicated URL keeps only the normalized
`itemB` (the first occurrence) and one duplicate is reported removed. -/
theorem C4_duplicate_url_first_wins_witness :
    (normalize_batch batchC4).items.filter
        (fun x => x.url == "https://divar.ir/b") =
      [normalize_item_fn itemB] ∧
    (normalize_batch batchC4).duplicates_removed = 1 :=
  C4_duplicate_url_first_wins batchC4 "https://divar.ir/b" itemB
    (by decide) (by decide) (by decide)


/-! ### Theorems: C8 -/

theorem collectItems_eq_flatten (rs : List CrawlResult) :
    collectItems rs =
      ((rs.filter (fun r => r.success)).map (fun r => r.items)).flatten := by
  have haux : ∀ (l : List CrawlResult) (acc : List CrawledItem),
      l.foldl (fun a r => a ++ r.items) acc =
        acc ++ (l.map (fun r => r.items)).flatten := by
    intro l
    induction l with
    | nil => intro acc; simp
    | cons r rest ih => intro acc; simp [ih]
  unfold collectItems
  rw [haux]
  simp

theorem keepFirst_nodup_id (l : List CrawledItem) (seen : List String)
    (hnd : (urlsOf l).Nodup) (hdisj : ∀ i ∈ l, i.url ∉ seen) :
    keepFirstByUrl l seen = l := by
  induction l generalizing seen with
  | nil => rfl
  | cons item rest ih =>
    simp only [urlsOf, List.map_cons, List.nodup_cons] at hnd
    unfold keepFirstByUrl
    rw [if_neg (hdisj item (List.mem_cons_self _ _))]
    congr 1
    apply ih _ hnd.2
    intro i hi hc
    rcases List.mem_cons.mp hc with he | hs
    · exact hnd.1 (he ▸ List.mem_map_of_mem (fun j => j.url) hi)
    · exact hdisj i (List.mem_cons_of_mem _ hi) hs

/-- C8: with pairwise-distinct item URLs across the successful results, the
deduplicated, scored item multiset produced by `normalize_batch` is the
same for every reordering of the constituent `CrawlResult`s. -/
theorem C8_normalize_batch_order_invariant (b1 b2 : CrawlBatchResult)
    (hperm : b1.results.Perm b2.results)
    (hnodup : (urlsOf (collectItems b1.results)).Nodup) :
    (normalize_batch b1).items.Perm (normalize_batch b2).items ∧
    (normalize_batch b1).total_items = (normalize_batch b2).total_items := by
  have hall : (collectItems b1.results).Perm (collectItems b2.results) := by
    rw [collectItems_eq_flatten, collectItems_eq_flatten]
    exact ((hperm.filter _).map _).flatten
  have hnd2 : (urlsOf (collectItems b2.results)).Nodup :=
    (hall.map _).nodup hnodup
  have hid1 : keepFirstByUrl (collectItems b1.results) [] =
      collectItems b1.results :=
    keepFirst_nodup_id _ _ hnodup (by simp)
  have hid2 : keepFirstByUrl (collectItems b2.results) [] =
      collectItems b2.results :=
    keepFirst_nodup_id _ _ hnd2 (by simp)
  have h1 : (normalize_batch b1).items =
      stableSort keyLe ((collectItems b1.results).map normalize_item_fn) := by
    show stableSort keyLe (dedupNormalizeLoop (collectItems b1.results) []) = _
    rw [dedupNormalizeLoop_eq_map, hid1]
  have h2 : (normalize_batch b2).items =
      stableSort keyLe ((collectItems b2.results).map normalize_item_fn) := by
    show stableSort keyLe (dedupNormalizeLoop (collectItems b2.results) []) = _
    rw [dedupNormalizeLoop_eq_map, hid2]
  have hp : (normalize_batch b1).items.Perm (normalize_batch b2).items := by
    rw [h1, h2]
    exact ((stableSort_perm _ _).trans (hall.map _)).trans
      (stableSort_perm _ _).symm
  refine ⟨hp, ?_⟩
  show (normalize_batch b1).items.length = (normalize_batch b2).items.length
  exact hp.length_eq

/-- A fourth concrete item with its own URL, for the C8 witness. -/
def itemD : CrawledItem :=
  { itemA with
    item_id := "d"
    source_site := "sheypoor"
    url := "https://sheypoor.com/d"
    title := "t4" }

/-- One order of a two-source batch with pairwise-distinct URLs. -/
def batchC8a : CrawlBatchResult :=
  { success := true
    results :=
      [{ success := true, site_name := "divar", items := [itemA, itemB],
         total_items := 2, execution_time := 0, errors := [] },
       { success := true, site_name := "sheypoor", items := [itemD],
         total_items := 1, execution_time := 0, errors := [] }]
    total_items := 3
    execution_time := 0 }

/-- The same batch with its results in the opposite order. -/
def batchC8b : CrawlBatchResult :=
  { success := true
    results :=
      [{ success := true, site_name := "sheypoor", items := [itemD],
         total_items := 1, execution_time := 0, errors := [] },
       { success := true, site_name := "divar", items := [itemA, itemB],
         total_items := 2, execution_time := 0, errors := [] }]
    total_items := 3
    execution_time := 0 }

/-- C8 witness: swapping the two constituent results leaves the normalized
item multiset and count unchanged. -/
theorem C8_normalize_batch_order_invariant_witness :
    (normalize_batch batchC8a).items.Perm (normalize_batch batchC8b).items ∧
    (normalize_batch batchC8a).total_items =
      (normalize_batch batchC8b).total_items :=
  C8_normalize_batch_order_invariant batchC8a batchC8b (by decide) (by decide)


/-! ### Theorems: C9 -/

theorem classify_by_keywords_entries (text : String) :
    ∀ p ∈ classify_by_keywords text, 0 < p.2 ∧ p.1 ≠ IntentType.unknown := by
  intro p hp
  unfold classify_by_keywords at hp
  have hp2 := (stableSort_perm _ _).mem_iff.mp hp
  rw [List.mem_filterMap] at hp2
  obtain ⟨q, hq, hqe⟩ := hp2
  have hknown : ∀ r ∈ intent_keywords, r.1 ≠ IntentType.unknown := by decide
  split at hqe
  · rename_i hm
    cases hqe
    constructor
    · have hml : (q.2.filter
          (fun k => containsStr k (lowerStr text))).length ≤ q.2.length :=
        List.length_filter_le _ _
      have hq2 : 0 < q.2.length := lt_of_lt_of_le hm hml
      refine lt_min ?_ one_pos
      have hnum : (0 : ℚ) <
          ((q.2.filter (fun k => containsStr k (lowerStr text))).length : ℚ) := by
        exact_mod_cast hm
      have hden : (0 : ℚ) < (q.2.length : ℚ) := by exact_mod_cast hq2
      positivity
    · exact hknown q hq
  · exact absurd hqe (by simp)

theorem classify_by_patterns_entries (text : String) :
    ∀ p ∈ classify_by_patterns text, 0 < p.2 ∧ p.1 ≠ IntentType.unknown := by
  intro p hp
  unfold classify_by_patterns at hp
  have hp2 := (stableSort_perm _ _).mem_iff.mp hp
  rw [List.mem_filterMap] at hp2
  obtain ⟨q, hq, hqe⟩ := hp2
  have hknown : ∀ r ∈ intent_patterns, r.1 ≠ IntentType.unknown := by decide
  split at hqe
  · cases hqe
    exact ⟨by norm_num, hknown q hq⟩
  · exact absurd hqe (by simp)

theorem dictAdd_entry {d : List (IntentType × ℚ)} {k : IntentType} {v : ℚ}
    (hd : ∀ q ∈ d, 0 < q.2 ∧ q.1 ≠ IntentType.unknown)
    (hv : 0 < v) (hk : k ≠ IntentType.unknown) :
    ∀ q ∈ dictAdd d k v, 0 < q.2 ∧ q.1 ≠ IntentType.unknown := by
  intro q hq
  unfold dictAdd at hq
  split at hq
  · rw [List.mem_map] at hq
    obtain ⟨p, hp, hpq⟩ := hq
    split at hpq
    · subst hpq
      exact ⟨add_pos (hd p hp).1 hv, (hd p hp).2⟩
    · subst hpq
      exact hd p hp
  · rw [List.mem_append] at hq
    rcases hq with hq | hq
    · exact hd q hq
    · rw [List.mem_singleton] at hq
      cases hq
      exact ⟨hv, hk⟩

theorem dictAdd_ne_nil (d : List (IntentType × ℚ)) (k : IntentType) (v : ℚ) :
    dictAdd d k v ≠ [] := by
  unfold dictAdd
  split
  · rename_i hc
    intro h
    rw [List.map_eq_nil_iff] at h
    subst h
    simp at hc
  · simp

theorem foldl_dictAdd_entries (l : List (IntentType × ℚ)) (w : ℚ) (hw : 0 < w)
    (hl : ∀ p ∈ l, 0 < p.2 ∧ p.1 ≠ IntentType.unknown) :
    ∀ init, (∀ q ∈ init, 0 < q.2 ∧ q.1 ≠ IntentType.unknown) →
      ∀ q ∈ l.foldl (fun d p => dictAdd d p.1 (p.2 * w)) init,
        0 < q.2 ∧ q.1 ≠ IntentType.unknown := by
  induction l with
  | nil => intro init hi; exact hi
  | cons p rest ih =>
    intro init hi
    simp only [List.foldl_cons]
    exact ih (fun r hr => hl r (List.mem_cons_of_mem _ hr)) _
      (dictAdd_entry hi (mul_pos (hl p (List.mem_cons_self _ _)).1 hw)
        (hl p (List.mem_cons_self _ _)).2)

theorem foldl_dictAdd_ne_nil (l : List (IntentType × ℚ)) (w : ℚ)
    (init : List (IntentType × ℚ)) (h : init ≠ [] ∨ l ≠ []) :
    l.foldl (fun d p => dictAdd d p.1 (p.2 * w)) init ≠ [] := by
  induction l generalizing init with
  | nil =>
    rcases h with h | h
    · exact h
    · exact absurd rfl h
  | cons p rest ih =>
    simp only [List.foldl_cons]
    exact ih _ (Or.inl (dictAdd_ne_nil _ _ _))

theorem combinedScores_entries (text : String) :
    ∀ q ∈ combinedScores text, 0 < q.2 ∧ q.1 ≠ IntentType.unknown := by
  unfold combinedScores
  exact foldl_dictAdd_entries _ _ (by norm_num)
    (classify_by_patterns_entries text) _
    (foldl_dictAdd_entries _ _ (by norm_num)
      (classify_by_keywords_entries text) [] (by intro q hq; cases hq))

theorem combinedScores_ne_nil (text : String)
    (hmatch : classify_by_keywords text ≠ [] ∨ classify_by_patterns text ≠ []) :
    combinedScores text ≠ [] := by
  unfold combinedScores
  rcases hmatch with h | h
  · exact foldl_dictAdd_ne_nil _ _ _
      (Or.inl (foldl_dictAdd_ne_nil _ _ _ (Or.inr h)))
  · exact foldl_dictAdd_ne_nil _ _ _ (Or.inr h)

theorem foldl_max_ge_init (ps : List (IntentType × ℚ)) (a : ℚ) :
    a ≤ ps.foldl (fun x q => max x q.2) a := by
  induction ps generalizing a with
  | nil => exact le_refl a
  | cons q rest ih => exact le_trans (le_max_left a q.2) (ih (max a q.2))

theorem foldl_max_ge_mem (ps : List (IntentType × ℚ)) (a : ℚ) :
    ∀ q ∈ ps, q.2 ≤ ps.foldl (fun x r => max x r.2) a := by
  induction ps generalizing a with
  | nil => intro q hq; cases hq
  | cons r rest ih =>
    intro q hq
    rcases List.mem_cons.mp hq with he | hmem
    · subst he
      exact le_trans (le_max_right a q.2) (foldl_max_ge_init rest _)
    · exact ih (max a r.2) q hmem

theorem foldl_max_attained (ps : List (IntentType × ℚ)) (a : ℚ) :
    ps.foldl (fun x r => max x r.2) a = a ∨
      ∃ q ∈ ps, ps.foldl (fun x r => max x r.2) a = q.2 := by
  induction ps generalizing a with
  | nil => exact Or.inl rfl
  | cons r rest ih =>
    rcases ih (max a r.2) with h | ⟨q, hq, he⟩
    · by_cases hc : a ≤ r.2
      · right
        refine ⟨r, List.mem_cons_self _ _, ?_⟩
        simp only [List.foldl_cons]
        rw [h, max_eq_right hc]
      · left
        simp only [List.foldl_cons]
        rw [h, max_eq_left (le_of_not_le hc)]
    · right
      exact ⟨q, List.mem_cons_of_mem _ hq, he⟩

theorem maxScoreVal_ge (d : List (IntentType × ℚ)) :
    ∀ q ∈ d, q.2 ≤ maxScoreVal d := by
  intro q hq
  cases d with
  | nil => cases hq
  | cons p ps =>
    rcases List.mem_cons.mp hq with he | hmem
    · subst he
      exact foldl_max_ge_init ps q.2
    · exact foldl_max_ge_mem ps p.2 q hmem

theorem maxScoreVal_attained (d : List (IntentType × ℚ)) (h : d ≠ []) :
    ∃ q ∈ d, q.2 = maxScoreVal d := by
  cases d with
  | nil => exact absurd rfl h
  | cons p ps =>
    show ∃ q ∈ p :: ps, q.2 = ps.foldl (fun a r => max a r.2) p.2
    rcases foldl_max_attained ps p.2 with he | ⟨q, hq, he⟩
    · exact ⟨p, List.mem_cons_self _ _, he.symm⟩
    · exact ⟨q, List.mem_cons_of_mem _ hq, he.symm⟩

theorem foldl_maxBy_mem (ps : List (IntentType × ℚ)) (b : IntentType × ℚ) :
    ps.foldl (fun x q => if x.2 < q.2 then q else x) b = b ∨
      ps.foldl (fun x q => if x.2 < q.2 then q else x) b ∈ ps := by
  induction ps generalizing b with
  | nil => exact Or.inl rfl
  | cons r rest ih =>
    simp only [List.foldl_cons]
    rcases ih (if b.2 < r.2 then r else b) with h | h
    · rw [h]
      split
      · exact Or.inr (List.mem_cons_self _ _)
      · exact Or.inl rfl
    · exact Or.inr (List.mem_cons_of_mem _ h)

theorem foldl_maxBy_ge (ps : List (IntentType × ℚ)) (b : IntentType × ℚ) :
    b.2 ≤ (ps.foldl (fun x q => if x.2 < q.2 then q else x) b).2 ∧
      ∀ q ∈ ps, q.2 ≤ (ps.foldl (fun x q => if x.2 < q.2 then q else x) b).2 := by
  induction ps generalizing b with
  | nil => exact ⟨le_refl _, fun q hq => absurd hq (List.not_mem_nil q)⟩
  | cons r rest ih =>
    simp only [List.foldl_cons]
    have hstep : b.2 ≤ (if b.2 < r.2 then r else b).2 ∧
        r.2 ≤ (if b.2 < r.2 then r else b).2 := by
      split
      · exact ⟨le_of_lt ‹b.2 < r.2›, le_refl _⟩
      · exact ⟨le_refl _, le_of_not_lt ‹¬ b.2 < r.2›⟩
    refine ⟨le_trans hstep.1 (ih _).1, ?_⟩
    intro q hq
    rcases List.mem_cons.mp hq with he | hmem
    · subst he
      exact le_trans hstep.2 (ih _).1
    · exact (ih _).2 q hmem

theorem maxByScore_mem (d : List (IntentType × ℚ)) (h : d ≠ []) :
    maxByScore d ∈ d := by
  cases d with
  | nil => exact absurd rfl h
  | cons p ps =>
    show ps.foldl (fun b q => if b.2 < q.2 then q else b) p ∈ p :: ps
    rcases foldl_maxBy_mem ps p with he | hm
    · rw [he]; exact List.mem_cons_self _ _
    · exact List.mem_cons_of_mem _ hm

theorem maxByScore_ge (d : List (IntentType × ℚ)) :
    ∀ q ∈ d, q.2 ≤ (maxByScore d).2 := by
  intro q hq
  cases d with
  | nil => cases hq
  | cons p ps =>
    show q.2 ≤ (ps.foldl (fun b r => if b.2 < r.2 then r else b) p).2
    rcases List.mem_cons.mp hq with he | hmem
    · subst he
      exact (foldl_maxBy_ge ps q).1
    · exact (foldl_maxBy_ge ps p).2 q hmem

theorem normalizeScores_le_one (d : List (IntentType × ℚ)) :
    ∀ q ∈ normalizeScores d, q.2 ≤ 1 := by
  intro q hq
  unfold normalizeScores at hq
  rw [List.mem_map] at hq
  obtain ⟨p, hp, he⟩ := hq
  cases he
  exact min_le_right _ _

theorem normalizeScores_attains_one (d : List (IntentType × ℚ)) (h : d ≠ [])
    (hpos : ∀ q ∈ d, 0 < q.2) : ∃ q ∈ normalizeScores d, q.2 = 1 := by
  obtain ⟨q, hq, hqv⟩ := maxScoreVal_attained d h
  have hm : 0 < maxScoreVal d := hqv ▸ hpos q hq
  refine ⟨(q.1, min (q.2 / maxScoreVal d) 1), ?_, ?_⟩
  · unfold normalizeScores
    exact List.mem_map_of_mem _ hq
  · simp only
    rw [hqv, div_self (ne_of_gt hm)]
    exact min_self 1

theorem normalizeScores_keys (d : List (IntentType × ℚ)) :
    ∀ q ∈ normalizeScores d, ∃ p ∈ d, q.1 = p.1 := by
  intro q hq
  unfold normalizeScores at hq
  rw [List.mem_map] at hq
  obtain ⟨p, hp, he⟩ := hq
  cases he
  exact ⟨p, hp, rfl⟩

/-- C9: whenever the (length-admissible) text matches at least one intent's
keywords or regex patterns, the divide-by-maximum normalization hands the
arg-max intent a confidence of exactly `1.0`, so `classify` returns
confidence `1.0` and no clarification is required. -/
theorem C9_matched_classify_confidence_one (text : String)
    (hlen : ¬ (stripStr text).length < 2)
    (hmatch : classify_by_keywords text ≠ [] ∨ classify_by_patterns text ≠ []) :
    (classify text).2 = 1 ∧
    requires_clarification (classify text).1 (classify text).2 = false := by
  have hcomb_ne := combinedScores_ne_nil text hmatch
  have hentries := combinedScores_entries text
  have hempty : (combinedScores text).isEmpty = false := by
    cases he : (combinedScores text).isEmpty
    · rfl
    · exact absurd (List.isEmpty_iff.mp he) hcomb_ne
  have hcl : classify text =
      maxByScore (normalizeScores (combinedScores text)) := by
    unfold classify
    rw [if_neg hlen]
    simp [hempty]
  have hN_ne : normalizeScores (combinedScores text) ≠ [] := by
    unfold normalizeScores
    simpa using hcomb_ne
  have hb_mem := maxByScore_mem _ hN_ne
  have h1le := normalizeScores_le_one (combinedScores text) _ hb_mem
  have h1ge : 1 ≤ (maxByScore (normalizeScores (combinedScores text))).2 := by
    obtain ⟨q, hq, hq1⟩ := normalizeScores_attains_one (combinedScores text)
      hcomb_ne (fun q hq => (hentries q hq).1)
    exact hq1 ▸ maxByScore_ge _ q hq
  have hval : (classify text).2 = 1 := by
    rw [hcl]
    exact le_antisymm h1le h1ge
  have hkey : (classify text).1 ≠ IntentType.unknown := by
    rw [hcl]
    obtain ⟨p, hp, he⟩ := normalizeScores_keys (combinedScores text) _ hb_mem
    rw [he]
    exact (hentries p hp).2
  refine ⟨hval, ?_⟩
  unfold requires_clarification
  rw [hval, if_neg (by norm_num), if_neg hkey]

/-- C9 witness: the single COMPARE keyword `"مقایسه"` is classified with
confidence exactly `1.0` and needs no clarification. -/
theorem C9_matched_classify_confidence_one_witness :
    (classify "مقایسه").2 = 1 ∧
    requires_clarification (classify "مقایسه").1 (classify "مقایسه").2 = false :=
  C9_matched_classify_confidence_one "مقایسه" (by decide)
    (Or.inl (by decide))


/-! ### Theorems: C1 -/

/-- C1 counterexample: `"سلام"` has no money or location markers, yet its
greeting keyword gives the classifier a normalized confidence of `1.0`, so
processing yields `requires_clarification = false` and *does* produce a
structured query — the overall confidence `0.28` is below `0.5` all the
same. -/
theorem C1_counterexample :
    (extract_all_entities "سلام").money_entities = [] ∧
    (extract_all_entities "سلام").locations = [] ∧
    classify "سلام" = (IntentType.greeting, 1) ∧
    (process_message "سلام").requires_clarification = false ∧
    (process_message "سلام").query.isSome = true ∧
    (process_message "سلام").confidence = 7 / 25 ∧
    ((7 : ℚ) / 25 < 1 / 2) := by
  decide

/-- C1 (amended): for a message whose classifier confidence falls below
`0.5` and whose extraction finds no money amounts, locations, loan or
monthly-payment mentions, processing yields `requires_clarification = true`,
an overall confidence below `0.5`, and no structured query. -/
theorem C1_amended (text : String)
    (hic : (classify text).2 < 1 / 2)
    (hm : extract_money_entities text = [])
    (hl : extract_location text = [])
    (hloan : extract_loan_info text = (0, 0))
    (hmp : extract_monthly_payment text = 0) :
    (process_message text).requires_clarification = true ∧
    (process_message text).confidence < 1 / 2 ∧
    (process_message text).query = none := by
  have hE1 : (extract_all_entities text).money_entities = [] := by
    show extract_money_entities text = []
    exact hm
  have hE2 : (extract_all_entities text).locations = [] := by
    show extract_location text = []
    exact hl
  have hE3 : (extract_all_entities text).loan_info = (0, 0) := by
    show extract_loan_info text = (0, 0)
    exact hloan
  have hE4 : (extract_all_entities text).monthly_payment = 0 := by
    show extract_monthly_payment text = 0
    exact hmp
  have hE5 : (extract_all_entities text).primary_liquidity = 0 := by
    have h : (extract_all_entities text).primary_liquidity =
        match (extract_money_entities text).head? with
        | some e => e.value
        | none => (0 : ℚ) := rfl
    rw [h, hm]
    rfl
  have hup : build_user_profile (extract_all_entities text) =
      Except.ok ⟨0, 0, 0, 0, 0⟩ := by
    unfold build_user_profile
    rw [hE5, hE3, hE4]
    rfl
  have hgoals : ∃ gs, build_search_goals (extract_all_entities text)
      ⟨0, 0, 0, 0, 0⟩ = Except.ok gs := by
    simp only [build_search_goals]
    rw [hE2]
    simp [mkSearchGoal, priceRangeInvalid, selectBudgetSource,
      UserProfile.total_budget, Bind.bind, Except.bind, pure, Except.pure]
  obtain ⟨gs, hgs⟩ := hgoals
  have hrc : requires_clarification (classify text).1 (classify text).2 = true := by
    unfold requires_clarification
    rw [if_pos hic]
  have hproc : nlu_process text = Except.ok
      { intent := (classify text).1
        confidence := calculate_confidence (classify text).2
          (extract_all_entities text) ⟨0, 0, 0, 0, 0⟩
        entities := extract_all_entities text
        user_profile := ⟨0, 0, 0, 0, 0⟩
        search_goals := gs
        requires_clarification := true
        clarification_questions :=
          get_clarification_questions (classify text).1 text
        is_multi_goal := decide (1 < gs.length) } := by
    simp only [nlu_process]
    rw [hup]
    simp only [Bind.bind, Except.bind]
    rw [hgs]
    simp [Bind.bind, Except.bind, pure, Except.pure, hrc]
  have hconf : calculate_confidence (classify text).2
      (extract_all_entities text) ⟨0, 0, 0, 0, 0⟩ < 1 / 2 := by
    have hcalc : calculate_confidence (classify text).2
        (extract_all_entities text) ⟨0, 0, 0, 0, 0⟩ =
      min (((classify text).2 * (4 / 10) +
        ((if !(extract_all_entities text).money_entities.isEmpty
            then (3 : ℚ) / 10 else 0) +
          (if !(extract_all_entities text).locations.isEmpty
            then (2 : ℚ) / 10 else 0) +
          (if (extract_all_entities text).search_type.type.isSome
            then (1 : ℚ) / 10 else 0)) * (6 / 10)) * (7 / 10)) 1 := rfl
    rw [hcalc, hE1, hE2]
    simp only [List.isEmpty_nil, Bool.not_true, Bool.false_eq_true, if_false]
    refine lt_of_le_of_lt (min_le_left _ _) ?_
    by_cases hs : (extract_all_entities text).search_type.type.isSome
    · rw [if_pos hs]
      linarith [hic]
    · rw [if_neg hs]
      linarith [hic]
  have hpm : process_message text =
      { success := true
        query := none
        confidence := calculate_confidence (classify text).2
          (extract_all_entities text) ⟨0, 0, 0, 0, 0⟩
        requires_clarification := true
        clarification_questions :=
          get_clarification_questions (classify text).1 text
        errors := [] } := by
    unfold process_message
    rw [hproc]
    rfl
  rw [hpm]
  exact ⟨rfl, hconf, rfl⟩

/-- C1 (amended) witness: the marker-free input `"xyz"` is classified
UNKNOWN at `0.3`, so processing asks for clarification with confidence
below `0.5` and produces no query. -/
theorem C1_amended_witness :
    (process_message "xyz").requires_clarification = true ∧
    (process_message "xyz").confidence < 1 / 2 ∧
    (process_message "xyz").query = none :=
  C1_amended "xyz" (by decide) (by decide) (by decide) (by decide) (by decide)


end SEDE
